import Mathlib

/-!
Verification development for the Gann-wheel stock-analysis engine.

Shallow embedding of the analytical core (`src/analysis/gann/gann_wheel.py`,
`src/analysis/volume_price/volume_price_analyzer.py`,
`price_prediction_analyzer.py`) over exact rationals.

Conventions of the embedding:
* prices and volumes are rationals (`ℚ`); trading dates are integers
  (day ordinals), so `timedelta(days = c)` is `+ c` and `(d1 - d2).days`
  is `d1 - d2`;
* a pandas `NaN` cell is `Option.none`; comparisons against `none`
  are `false`, exactly as `NaN > x` is `False` in Python;
* the floating-point kernels `math.sqrt` and `math.tan` are supplied as
  rational-valued function parameters of the configuration (their exact
  values never matter for the properties proved here);
* an in-pandas exception (for instance `data.index[-30]` on a short frame)
  is modelled by the branch the surrounding `try/except` turns it into.
-/

namespace GannSpec

/-- Largest element of a rational list (`series.max()`); `0` on `[]`,
which the sources only reach on frames already rejected as empty. -/
def listMax : List ℚ → ℚ
  | [] => 0
  | [a] => a
  | a :: b :: rest => max a (listMax (b :: rest))

/-- Smallest element of a rational list (`series.min()`); `0` on `[]`. -/
def listMin : List ℚ → ℚ
  | [] => 0
  | [a] => a
  | a :: b :: rest => min a (listMin (b :: rest))

/-- Sum of a rational list. -/
def listSum (l : List ℚ) : ℚ := l.foldr (· + ·) 0

/-- Arithmetic mean of a rational list (`np.mean` / `series.mean()` on
all-valid data); `0` on `[]`. -/
def listMean (l : List ℚ) : ℚ := listSum l / l.length

/-- Python `range(a, b)`: the list `[a, a+1, ..., b-1]`, empty when `b ≤ a`. -/
def pyRange (a b : ℕ) : List ℕ := List.range' a (b - a)

/-- Python `int(x)` on a rational: truncation toward zero. -/
def intTrunc (q : ℚ) : ℤ := if 0 ≤ q then ⌊q⌋ else -⌊-q⌋

/-- Comparison `x > c` where `x` may be `NaN` (`none`): `False` on `NaN`. -/
def ogt (x : Option ℚ) (c : ℚ) : Bool :=
  match x with
  | none => false
  | some v => c < v

/-- Comparison `x < c` where `x` may be `NaN` (`none`): `False` on `NaN`. -/
def olt (x : Option ℚ) (c : ℚ) : Bool :=
  match x with
  | none => false
  | some v => v < c

/-- One OHLCV bar.  The field names follow the required pandas columns
`Open/High/Low/Close/Volume`; `date` is the `DatetimeIndex` entry. -/
structure Bar where
  date : ℤ
  Open : ℚ
  High : ℚ
  Low : ℚ
  Close : ℚ
  Volume : ℚ
  deriving Repr, DecidableEq

/-- A bar table together with which of the five OHLCV columns are present.
`rows` is the time-ordered frame; a `false` flag means any access to that
column raises a pandas `KeyError`. -/
structure Table where
  rows : List Bar
  hasOpen : Bool
  hasHigh : Bool
  hasLow : Bool
  hasClose : Bool
  hasVolume : Bool
  deriving Repr, DecidableEq

/-- Value of `data['High'].iloc[i]` (`0` out of range; the sources only
index in range). -/
def highAt (data : List Bar) (i : ℕ) : ℚ := ((data.get? i).map Bar.High).getD 0

/-- Value of `data['Low'].iloc[i]`. -/
def lowAt (data : List Bar) (i : ℕ) : ℚ := ((data.get? i).map Bar.Low).getD 0

/-- Value of `data['Close'].iloc[i]`. -/
def closeAt (data : List Bar) (i : ℕ) : ℚ := ((data.get? i).map Bar.Close).getD 0

/-- Value of `data['Volume'].iloc[i]`. -/
def volumeAt (data : List Bar) (i : ℕ) : ℚ := ((data.get? i).map Bar.Volume).getD 0

/-- Value of `data.index[i]`. -/
def dateAt (data : List Bar) (i : ℕ) : ℤ := ((data.get? i).map Bar.date).getD 0

/-- Value of `data['Close'].iloc[-1]` on a nonempty frame. -/
def lastClose (data : List Bar) : ℚ := closeAt data (data.length - 1)

/-- Value of `data.index[-1]` on a nonempty frame. -/
def lastDate (data : List Bar) : ℤ := dateAt data (data.length - 1)

end GannSpec

namespace GannSpec

/-! ### Pivot points (`GannWheel._find_pivot_points`) -/

/-- One entry of the pivot lists built by `_find_pivot_points`:
`{'date': …, 'price': …, 'type': 'high'|'low', 'index': i}`. -/
structure Pivot where
  date : ℤ
  price : ℚ
  type : String
  index : ℕ
  deriving Repr, DecidableEq

/-- Test from `_find_pivot_points`: bar `i` is a local high over the
window, i.e. `High[i] >= High[i±j]` for `j = 1..window`. -/
def isLocalHigh (data : List Bar) (window i : ℕ) : Bool :=
  ((List.range window).all fun j => highAt data (i - (j + 1)) ≤ highAt data i) &&
  ((List.range window).all fun j => highAt data (i + (j + 1)) ≤ highAt data i)

/-- Test from `_find_pivot_points`: bar `i` is a local low over the
window, i.e. `Low[i] <= Low[i±j]` for `j = 1..window`. -/
def isLocalLow (data : List Bar) (window i : ℕ) : Bool :=
  ((List.range window).all fun j => lowAt data i ≤ lowAt data (i - (j + 1))) &&
  ((List.range window).all fun j => lowAt data i ≤ lowAt data (i + (j + 1)))

/-- Embedding of `GannWheel._find_pivot_points` (window default 5):
scan `i ∈ range(window, len(data) - window)` and collect local highs and
local lows. -/
def findPivotPoints (data : List Bar) (window : ℕ := 5) : List Pivot × List Pivot :=
  (((pyRange window (data.length - window)).filter (isLocalHigh data window)).map
      fun i => ⟨dateAt data i, highAt data i, "high", i⟩,
   ((pyRange window (data.length - window)).filter (isLocalLow data window)).map
      fun i => ⟨dateAt data i, lowAt data i, "low", i⟩)

/-! ### Configuration of `GannWheel.__init__` -/

/-- Configuration of the Gann analyzer.  `sqrtFn`/`tanFn` stand for the
numeric `math.sqrt`/`math.tan` routines, passed in so that the embedding
stays exact over `ℚ`. -/
structure GannConfig where
  timeCycles : List ℕ
  priceAngles : List ℚ
  squareSize : ℕ
  tolerance : ℚ
  sqrtFn : ℚ → ℚ
  tanFn : ℚ → ℚ

/-- Default `time_cycles` list from `GannWheel.__init__`. -/
def defaultTimeCycles : List ℕ := [7, 14, 21, 30, 45, 60, 90, 120, 180, 360]

/-- Default `price_angles` list from `GannWheel.__init__`; note that it
contains 90 and 180 among other angles. -/
def defaultPriceAngles : List ℚ := [15, 30, 45, 60, 75, 90, 105, 120, 135, 150, 165, 180]

/-! ### Time cycles (`_analyze_single_time_cycle`, `_analyze_time_cycles`,
`_calculate_next_time_windows`) -/

/-- Result record of `_analyze_single_time_cycle`; the zero-pivot early
return carries no `total_intervals` key, hence the `Option`. -/
structure CycleInfo where
  cycle : ℕ
  strength : ℚ
  matchCount : ℕ
  totalIntervals : Option ℤ
  deriving Repr, DecidableEq

/-- Sort key used throughout: stable ascending order by date
(strict comparison keeps Python's stable-sort tie order). -/
def sortPivotsByDate (points : List Pivot) : List Pivot :=
  points.insertionSort fun a b => a.date < b.date

/-- Embedding of `GannWheel._analyze_single_time_cycle`: count the gaps
between date-consecutive pivots whose length is within
`cycle * tolerance` of the candidate `cycle`. -/
def analyzeSingleTimeCycle (tolerance : ℚ) (highs lows : List Pivot) (cycle : ℕ) :
    CycleInfo :=
  let totalPoints := highs.length + lows.length
  if totalPoints = 0 then ⟨cycle, 0, 0, none⟩
  else
    let allPoints := sortPivotsByDate (highs ++ lows)
    let diffs := allPoints.zip allPoints.tail
    let matchCount := (diffs.filter fun p =>
      |((p.2.date - p.1.date : ℤ) : ℚ) - (cycle : ℚ)| ≤ (cycle : ℚ) * tolerance).length
    ⟨cycle, (matchCount : ℚ) / ((max ((totalPoints : ℤ) - 1) 1 : ℤ) : ℚ), matchCount,
      some ((totalPoints : ℤ) - 1)⟩

/-- One record of `_calculate_next_time_windows`. -/
structure TimeWindow where
  cycle : ℕ
  nextDate : ℤ
  strength : ℚ
  daysAhead : ℕ
  deriving Repr, DecidableEq

/-- Embedding of `GannWheel._calculate_next_time_windows`: project the
top-3 strongest cycles forward from the last bar date. -/
def calculateNextTimeWindows (data : List Bar) (cycles : List CycleInfo) :
    List TimeWindow :=
  if cycles.isEmpty then []
  else
    (cycles.take 3).map fun c =>
      ⟨c.cycle, lastDate data + (c.cycle : ℤ), c.strength, c.cycle⟩

/-- Result of `_analyze_time_cycles`. -/
structure TimeAnalysis where
  cyclesFound : List CycleInfo
  dominantCycle : Option CycleInfo
  nextTimeWindows : List TimeWindow
  deriving Repr, DecidableEq

/-- Degraded default of `_analyze_time_cycles` (its `except` branch). -/
def timeAnalysisDefault : TimeAnalysis := ⟨[], none, []⟩

/-- Embedding of `GannWheel._analyze_time_cycles`: keep candidate cycles
with strength `> 0.3`, sorted by descending strength. -/
def analyzeTimeCycles (cfg : GannConfig) (data : List Bar) : TimeAnalysis :=
  let (highs, lows) := findPivotPoints data
  let found := (cfg.timeCycles.map (analyzeSingleTimeCycle cfg.tolerance highs lows)).filter
    fun c => (3 : ℚ)/10 < c.strength
  let found := found.insertionSort fun a b => b.strength < a.strength
  ⟨found, found.head?, calculateNextTimeWindows data found⟩

/-! ### Price-level strength helpers (`_calculate_price_level_strength`,
`_count_price_touches`) -/

/-- Embedding of `GannWheel._calculate_price_level_strength`: fraction of
bars whose High — or otherwise Low — lies within `level * tolerance` of
the level, capped at 1. -/
def calculatePriceLevelStrength (tolerance : ℚ) (data : List Bar) (level : ℚ) : ℚ :=
  let toleranceRange := level * tolerance
  let touches := (data.filter fun row =>
    |row.High - level| ≤ toleranceRange || |row.Low - level| ≤ toleranceRange).length
  min ((touches : ℚ) / (data.length : ℚ)) 1

/-- Embedding of `GannWheel._count_price_touches`: bars whose `[Low, High]`
range overlaps the tolerance band around the level. -/
def countPriceTouches (tolerance : ℚ) (data : List Bar) (level : ℚ) : ℕ :=
  let toleranceRange := level * tolerance
  (data.filter fun row =>
    row.Low ≤ level + toleranceRange && level - toleranceRange ≤ row.High).length

/-! ### Price cycles (`_analyze_price_cycles`,
`_analyze_current_price_position`) -/

/-- One record of the `price_cycles` list in `_analyze_price_cycles`. -/
structure PriceCycleLevel where
  level : ℚ
  type : String
  ratioVal : ℚ
  strength : ℚ
  touches : ℕ
  deriving Repr, DecidableEq

/-- Result of `_analyze_current_price_position`. -/
structure PricePosInfo where
  currentPrice : ℚ
  nearestSupport : Option PriceCycleLevel
  nearestResistance : Option PriceCycleLevel
  supportDistance : Option ℚ
  resistanceDistance : Option ℚ
  deriving Repr, DecidableEq

/-- Embedding of `GannWheel._analyze_current_price_position`: nearest
level below / above the last close among the collected price cycles. -/
def analyzeCurrentPricePosition (data : List Bar) (priceCycles : List PriceCycleLevel) :
    PricePosInfo :=
  let currentPrice := lastClose data
  let support := priceCycles.foldl
    (fun best info =>
      if info.level < currentPrice ∧ (∀ b ∈ best.toList, b.level < info.level)
      then some info else best)
    none
  let resistance := priceCycles.foldl
    (fun best info =>
      if currentPrice < info.level ∧ (∀ b ∈ best.toList, info.level < b.level)
      then some info else best)
    none
  ⟨currentPrice, support, resistance,
    support.map fun s => (currentPrice - s.level) / currentPrice,
    resistance.map fun r => (r.level - currentPrice) / currentPrice⟩

/-- Result of `_analyze_price_cycles`; `currentPos = none` models the `{}`
of the degraded branch. -/
structure PriceAnalysis where
  priceRange : ℚ
  priceCenter : ℚ
  keyLevels : List PriceCycleLevel
  currentPos : Option PricePosInfo
  deriving Repr, DecidableEq

/-- Degraded default of `_analyze_price_cycles`. -/
def priceAnalysisDefault : PriceAnalysis := ⟨0, 0, [], none⟩

/-- Embedding of `GannWheel._analyze_price_cycles`: candidate levels at
`center ± range·pct/2` for the fixed ratio ladder, kept when their touch
strength exceeds 0.2, sorted by descending strength. -/
def analyzePriceCycles (cfg : GannConfig) (data : List Bar) : PriceAnalysis :=
  let priceRange := listMax (data.map Bar.High) - listMin (data.map Bar.Low)
  let priceCenter := (listMax (data.map Bar.High) + listMin (data.map Bar.Low)) / 2
  let ratios : List ℚ := [236/1000, 382/1000, 1/2, 618/1000, 786/1000, 1, 1272/1000, 1618/1000]
  let priceCycles := ratios.foldr
    (fun pct acc =>
      let level := priceCenter + priceRange * pct / 2
      let levelLow := priceCenter - priceRange * pct / 2
      let strengthHigh := calculatePriceLevelStrength cfg.tolerance data level
      let strengthLow := calculatePriceLevelStrength cfg.tolerance data levelLow
      (if (1 : ℚ)/5 < strengthHigh then
        [PriceCycleLevel.mk level "resistance" pct strengthHigh
          (countPriceTouches cfg.tolerance data level)] else []) ++
      (if (1 : ℚ)/5 < strengthLow then
        [PriceCycleLevel.mk levelLow "support" pct strengthLow
          (countPriceTouches cfg.tolerance data levelLow)] else []) ++ acc)
    []
  let priceCycles := priceCycles.insertionSort fun a b => b.strength < a.strength
  ⟨priceRange, priceCenter, priceCycles.take 10,
    some (analyzeCurrentPricePosition data priceCycles)⟩

/-! ### Gann angle lines (`_calculate_gann_angle_line`,
`_analyze_gann_angles`, `_find_current_angle_support`,
`_find_current_angle_resistance`) -/

/-- One entry of the `line_points` list of an angle line. -/
structure LinePoint where
  date : ℤ
  predictedPrice : ℚ
  actualPrice : ℚ
  deriving Repr, DecidableEq

/-- Result record of `_calculate_gann_angle_line`. -/
structure AngleLine where
  startDate : ℤ
  startPrice : ℚ
  angle : ℚ
  pointType : String
  slope : ℚ
  strength : ℚ
  touches : ℕ
  linePoints : List LinePoint
  deriving Repr, DecidableEq

/-- Branch test of `_calculate_gann_angle_line`: every angle other than
the three special-cased ones (45, 26.25, 63.75) reaches the
`math.tan(angle_rad)` branch — there is no guard at 90 or 270. -/
def angleLineUsesTan (angle : ℚ) : Bool :=
  !(angle == 45 || angle == 2625/100 || angle == 6375/100)

/-- Slope selection of `_calculate_gann_angle_line`.  `tanFn` is the
`math.tan ∘ math.radians` kernel (tangent of an angle in degrees). -/
def gannSlope (tanFn : ℚ → ℚ) (angle : ℚ) (pointType : String) : ℚ :=
  if angle = 45 then (if pointType = "low" then 1 else -1)
  else if angle = 2625/100 then (if pointType = "low" then 2 else -2)
  else if angle = 6375/100 then (if pointType = "low" then 1/2 else -(1/2))
  else (if pointType = "low" then tanFn angle else -(tanFn angle))

/-- Position of `start_date` in the index (`data.index.get_loc`), `0`
when the date is absent. -/
def indexOfDate (data : List Bar) (d : ℤ) : ℕ :=
  (data.findIdx? fun b => b.date = d).getD 0

/-- Embedding of `GannWheel._calculate_gann_angle_line`: project
`start_price + slope · days · start_price · 0.01` forward and count the
bars whose `[Low, High]` range touches the projected price within
tolerance.  The projection is not clamped in any way. -/
def calculateGannAngleLine (cfg : GannConfig) (data : List Bar) (startDate : ℤ)
    (startPrice : ℚ) (angle : ℚ) (pointType : String) : AngleLine :=
  let slope := gannSlope cfg.tanFn angle pointType
  let startIndex := indexOfDate data startDate
  let hits := (pyRange (startIndex + 1) data.length).filterMap fun i =>
    let daysDiff : ℕ := i - startIndex
    let predictedPrice := startPrice + slope * (daysDiff : ℚ) * startPrice * (1/100)
    let toleranceRange := predictedPrice * cfg.tolerance
    if lowAt data i ≤ predictedPrice + toleranceRange ∧
        predictedPrice - toleranceRange ≤ highAt data i then
      some (LinePoint.mk (dateAt data i) predictedPrice
        ((highAt data i + lowAt data i) / 2))
    else none
  let touches := hits.length
  let strength := if 0 < data.length - startIndex then
    (touches : ℚ) / ((data.length - startIndex : ℕ) : ℚ) else 0
  ⟨startDate, startPrice, angle, pointType, slope, strength, touches, hits⟩

/-- Current-support record of `_find_current_angle_support`. -/
structure CurrentAngleLevel where
  lineInfo : AngleLine
  price : ℚ
  distance : ℚ
  distancePct : ℚ
  deriving Repr, DecidableEq

/-- Embedding of `GannWheel._find_current_angle_support`: among ascending
lines from lows that sit below the last close, the closest one. -/
def findCurrentAngleSupport (data : List Bar) (angleLines : List AngleLine) :
    Option CurrentAngleLevel :=
  let currentPrice := lastClose data
  let currentDate := lastDate data
  (angleLines.foldl
    (fun best line =>
      if line.pointType = "low" ∧ line.startDate < currentDate then
        let daysDiff := currentDate - line.startDate
        let linePrice := line.startPrice + line.slope * (daysDiff : ℚ) * line.startPrice * (1/100)
        if linePrice < currentPrice ∧
            (∀ b ∈ best.toList, currentPrice - linePrice < b.distance) then
          some ⟨line, linePrice, currentPrice - linePrice,
            (currentPrice - linePrice) / currentPrice⟩
        else best
      else best)
    none)

/-- Embedding of `GannWheel._find_current_angle_resistance`: among lines
from highs that sit above the last close, the closest one. -/
def findCurrentAngleResistance (data : List Bar) (angleLines : List AngleLine) :
    Option CurrentAngleLevel :=
  let currentPrice := lastClose data
  let currentDate := lastDate data
  (angleLines.foldl
    (fun best line =>
      if line.pointType = "high" ∧ line.startDate < currentDate then
        let daysDiff := currentDate - line.startDate
        let linePrice := line.startPrice + line.slope * (daysDiff : ℚ) * line.startPrice * (1/100)
        if currentPrice < linePrice ∧
            (∀ b ∈ best.toList, linePrice - currentPrice < b.distance) then
          some ⟨line, linePrice, linePrice - currentPrice,
            (linePrice - currentPrice) / currentPrice⟩
        else best
      else best)
    none)

/-- Result of `_analyze_gann_angles`. -/
structure AngleAnalysis where
  angleLines : List AngleLine
  currentAngleSupport : Option CurrentAngleLevel
  currentAngleResistance : Option CurrentAngleLevel
  deriving Repr, DecidableEq

/-- Degraded default of `_analyze_gann_angles`. -/
def angleAnalysisDefault : AngleAnalysis := ⟨[], none, none⟩

/-- Python `points[-5:]`: the last five elements. -/
def lastFive {α : Type} (l : List α) : List α := l.drop (l.length - 5)

/-- Embedding of `GannWheel._analyze_gann_angles`: draw lines at every
configured angle from the five most recent pivot highs and lows, keep
those with strength `> 0.3`, sort by descending strength. -/
def analyzeGannAngles (cfg : GannConfig) (data : List Bar) : AngleAnalysis :=
  let (highs, lows) := findPivotPoints data
  let mkLines := fun (pointType : String) (points : List Pivot) =>
    (lastFive points).foldr
      (fun point acc =>
        (cfg.priceAngles.filterMap fun angle =>
          let line := calculateGannAngleLine cfg data point.date point.price angle pointType
          if (3 : ℚ)/10 < line.strength then some line else none) ++ acc)
      []
  let angleLines := mkLines "high" highs ++ mkLines "low" lows
  let angleLines := angleLines.insertionSort fun a b => b.strength < a.strength
  ⟨angleLines.take 20, findCurrentAngleSupport data angleLines,
    findCurrentAngleResistance data angleLines⟩

/-! ### Gann square (`_analyze_gann_square` and helpers) -/

/-- One record of `_calculate_gann_square_levels`. -/
structure SquareLevel where
  price : ℚ
  squareLevel : ℤ
  division : ℚ
  type : String
  deriving Repr, DecidableEq

/-- Embedding of `GannWheel._calculate_gann_square_levels`: interpolate
division points between consecutive squares `(√center + i)²` for
`i ∈ [-2, 2]`.  The source special-cases `i == 0` with
`next_square = (√center + 1)²`, which coincides with the general
`(√center + i + 1)²` formula. -/
def calculateGannSquareLevels (sqrtFn : ℚ → ℚ) (center : ℚ) : List SquareLevel :=
  let squareRoot := sqrtFn center
  let divisions : List ℚ := [0, 125/1000, 1/4, 375/1000, 1/2, 625/1000, 3/4, 875/1000, 1]
  let levels := ([-2, -1, 0, 1, 2] : List ℤ).foldr
    (fun (i : ℤ) (acc : List SquareLevel) =>
      let base : ℚ := (squareRoot + (i : ℚ)) ^ 2
      let nextSquare : ℚ := (squareRoot + (i : ℚ) + 1) ^ 2
      (divisions.map fun div =>
        SquareLevel.mk (base + (nextSquare - base) * div) i div "gann_square") ++ acc)
    []
  levels.insertionSort fun a b => a.price < b.price

/-- Result of `_analyze_square_position`; the loop's fallback (`break` at
the first level, or no level above the price) carries only
`current_price` and `position_pct = 0`, hence the `Option` fields. -/
structure SquarePos where
  currentPrice : ℚ
  lowerLevel : Option SquareLevel
  upperLevel : Option SquareLevel
  positionPct : ℚ
  squareLevel : Option ℤ
  deriving Repr, DecidableEq

/-- Embedding of `GannWheel._analyze_square_position`: locate the current
price between the two bracketing square levels. -/
def analyzeSquarePosition (currentPrice : ℚ) (squareLevels : List SquareLevel) :
    SquarePos :=
  match squareLevels.findIdx? (fun level => currentPrice < level.price) with
  | none => ⟨currentPrice, none, none, 0, none⟩
  | some 0 => ⟨currentPrice, none, none, 0, none⟩
  | some (i + 1) =>
    match squareLevels.get? i, squareLevels.get? (i + 1) with
    | some lower, some upper =>
      ⟨currentPrice, some lower, some upper,
        (currentPrice - lower.price) / (upper.price - lower.price),
        some lower.squareLevel⟩
    | _, _ => ⟨currentPrice, none, none, 0, none⟩

/-- One record of `_calculate_next_square_levels`. -/
structure NextSquareLevel where
  price : ℚ
  distance : ℚ
  distancePct : ℚ
  direction : String
  squareInfo : SquareLevel
  deriving Repr, DecidableEq

/-- Embedding of `GannWheel._calculate_next_square_levels`: keep square
levels between 1% and 20% away from the current price, closest first. -/
def calculateNextSquareLevels (currentPrice : ℚ) (squareLevels : List SquareLevel) :
    List NextSquareLevel :=
  let nextLevels := squareLevels.filterMap fun level =>
    let distance := |level.price - currentPrice|
    let distancePct := distance / currentPrice
    if (1 : ℚ)/100 ≤ distancePct ∧ distancePct ≤ (1 : ℚ)/5 then
      some (NextSquareLevel.mk level.price distance distancePct
        (if currentPrice < level.price then "up" else "down") level)
    else none
  (nextLevels.insertionSort fun a b => a.distance < b.distance).take 5

/-- Embedding of `GannWheel._calculate_square_strength`: average touch
count per level over the bar count, capped at 1. -/
def calculateSquareStrength (cfg : GannConfig) (data : List Bar)
    (squareLevels : List SquareLevel) : ℚ :=
  let totalTouches := listSum (squareLevels.map fun level =>
    ((countPriceTouches cfg.tolerance data level.price : ℕ) : ℚ))
  let avgTouches := totalTouches / ((max squareLevels.length 1 : ℕ) : ℚ)
  min (avgTouches / (data.length : ℚ)) 1

/-- Result of `_analyze_gann_square`; the degraded default lacks the
`square_strength` key, hence the `Option`. -/
structure SquareAnalysis where
  squareCenter : ℤ
  squareLevels : List SquareLevel
  currentPosition : Option SquarePos
  nextLevels : List NextSquareLevel
  squareStrength : Option ℚ
  deriving Repr, DecidableEq

/-- Degraded default of `_analyze_gann_square`. -/
def squareAnalysisDefault : SquareAnalysis := ⟨0, [], none, [], none⟩

/-- Embedding of `GannWheel._analyze_gann_square`: snap the current price
to the nearest perfect square and analyze the interpolated grid. -/
def analyzeGannSquare (cfg : GannConfig) (data : List Bar) : SquareAnalysis :=
  let currentPrice := lastClose data
  let squareRoot := cfg.sqrtFn currentPrice
  let lowerCenter : ℤ := (intTrunc squareRoot) ^ 2
  let upperCenter : ℤ := (intTrunc squareRoot + 1) ^ 2
  let squareCenter : ℤ :=
    if |currentPrice - (upperCenter : ℚ)| < |currentPrice - (lowerCenter : ℚ)| then
      upperCenter else lowerCenter
  let squareLevels := calculateGannSquareLevels cfg.sqrtFn (squareCenter : ℚ)
  ⟨squareCenter, squareLevels,
    some (analyzeSquarePosition currentPrice squareLevels),
    calculateNextSquareLevels currentPrice squareLevels,
    some (calculateSquareStrength cfg data squareLevels)⟩

/-! ### Time-price resonance (`_analyze_time_price_resonance` and helpers) -/

/-- One record of the `matching_cycles` list of `_check_time_resonance`. -/
structure MatchingCycle where
  cycle : ℕ
  date : ℤ
  timeDiff : ℤ
  deriving Repr, DecidableEq

/-- Result of `_check_time_resonance`. -/
structure TimeResonance where
  strength : ℚ
  matchingCycles : List MatchingCycle
  deriving Repr, DecidableEq

/-- Embedding of `GannWheel._check_time_resonance`: for each configured
cycle, the first bar whose distance to the target date is within
`max(cycle · tolerance, 1)` days of that cycle; each matched cycle adds
`1 / len(time_cycles)` to the strength. -/
def checkTimeResonance (cfg : GannConfig) (data : List Bar) (targetDate : ℤ) :
    TimeResonance :=
  let matched := cfg.timeCycles.filterMap fun (cycle : ℕ) =>
    let toleranceDays : ℚ := max ((cycle : ℚ) * cfg.tolerance) 1
    (data.find? fun bar =>
      let timeDiff : ℤ := |bar.date - targetDate|
      ((|timeDiff - (cycle : ℤ)| : ℤ) : ℚ) ≤ toleranceDays).map
      fun bar => MatchingCycle.mk cycle bar.date |bar.date - targetDate|
  ⟨(matched.length : ℚ) / (cfg.timeCycles.length : ℚ), matched⟩

/-- Result of `_check_price_resonance`. -/
structure PriceResonance where
  strength : ℚ
  touches : ℕ
  isGannLevel : Bool
  deriving Repr, DecidableEq

/-- Embedding of `GannWheel._check_price_resonance`. -/
def checkPriceResonance (cfg : GannConfig) (data : List Bar) (targetPrice : ℚ) :
    PriceResonance :=
  let strength := calculatePriceLevelStrength cfg.tolerance data targetPrice
  let touches := countPriceTouches cfg.tolerance data targetPrice
  let squareLevels := calculateGannSquareLevels cfg.sqrtFn targetPrice
  let isGannLevel := squareLevels.any fun level =>
    |level.price - targetPrice| / targetPrice < cfg.tolerance
  ⟨strength, touches, isGannLevel⟩

/-- One resonance point of `_analyze_time_price_resonance`. -/
structure ResonancePoint where
  date : ℤ
  price : ℚ
  type : String
  timeResonance : TimeResonance
  priceResonance : PriceResonance
  totalStrength : ℚ
  deriving Repr, DecidableEq

/-- Result of `_predict_next_resonance`. -/
structure NextResonance where
  predictedDate : ℤ
  daysAhead : ℤ
  predictedPriceUp : ℚ
  predictedPriceDown : ℚ
  confidence : ℚ
  deriving Repr, DecidableEq

/-- Embedding of `GannWheel._predict_next_resonance`: extrapolate the mean
gap between the (strength-ordered) resonance points. -/
def predictNextResonance (data : List Bar) (resonancePoints : List ResonancePoint) :
    Option NextResonance :=
  if resonancePoints.length < 2 then none
  else
    let currentDate := lastDate data
    let currentPrice := lastClose data
    let timeIntervals : List ℤ := (resonancePoints.zip resonancePoints.tail).map
      fun p => p.1.date - p.2.date
    if timeIntervals.isEmpty then none
    else
      let avgInterval : ℚ := listSum (timeIntervals.map fun i => (i : ℚ)) / timeIntervals.length
      some ⟨currentDate + intTrunc avgInterval, intTrunc avgInterval,
        currentPrice * (11/10), currentPrice * (9/10),
        min ((resonancePoints.length : ℚ) / 10) 1⟩

/-- Result of `_analyze_time_price_resonance`. -/
structure ResonanceAnalysis where
  resonancePoints : List ResonancePoint
  strongestResonance : Option ResonancePoint
  nextResonancePrediction : Option NextResonance
  deriving Repr, DecidableEq

/-- Degraded default of `_analyze_time_price_resonance`. -/
def resonanceAnalysisDefault : ResonanceAnalysis := ⟨[], none, none⟩

/-- Embedding of `GannWheel._analyze_time_price_resonance`. -/
def analyzeTimePriceResonance (cfg : GannConfig) (data : List Bar) :
    ResonanceAnalysis :=
  let (highs, lows) := findPivotPoints data
  let points := (highs ++ lows).filterMap fun point =>
    let timeRes := checkTimeResonance cfg data point.date
    let priceRes := checkPriceResonance cfg data point.price
    let total := (timeRes.strength + priceRes.strength) / 2
    if (2 : ℚ)/5 < total then
      some (ResonancePoint.mk point.date point.price point.type timeRes priceRes total)
    else none
  let points := points.insertionSort fun a b => b.totalStrength < a.totalStrength
  ⟨points, points.head?, predictNextResonance data points⟩

/-! ### Key levels (`_find_historical_key_levels`, `_calculate_gann_price_levels`,
`_calculate_fibonacci_levels`, `_merge_similar_levels`, `_merge_level_group`,
`_calculate_key_levels`).  The input level records carry further descriptive
fields (`date`, `ratio`, `square_info`, `base_high`, `base_low`) that no
downstream computation reads; the embedding keeps the three fields the
merge consumes. -/

/-- A price level prior to clustering: the `price`/`type`/`strength`
triple read by `_merge_similar_levels`. -/
structure Level where
  price : ℚ
  type : String
  strength : ℚ
  deriving Repr, DecidableEq

/-- Output record of `_merge_level_group`. -/
structure MergedLevel where
  price : ℚ
  type : String
  strength : ℚ
  count : ℕ
  originalTypes : List String
  deriving Repr, DecidableEq

/-- Ascending-price order used by `sorted(levels, key=lambda x: x['price'])`. -/
def levelLe (a b : Level) : Prop := a.price ≤ b.price

instance : DecidableRel levelLe := fun a b => inferInstanceAs (Decidable (a.price ≤ b.price))

instance : IsTotal Level levelLe := ⟨fun a b => le_total a.price b.price⟩

instance : IsTrans Level levelLe := ⟨fun _ _ _ h1 h2 => le_trans h1 h2⟩

/-- Duplicate removal keeping first occurrences; stands in for Python's
`list(set(...))`, whose hash iteration order the embedding fixes to
first-appearance order. -/
def firstDedup (l : List String) : List String :=
  l.foldl (fun acc a => if a ∈ acc then acc else acc ++ [a]) []

/-- Embedding of `GannWheel._merge_level_group`: mean price, mean
strength, common type (or `"combined"`), member count. -/
def mergeLevelGroup (group : List Level) : MergedLevel :=
  let avgPrice := listSum (group.map Level.price) / group.length
  let totalStrength := listSum (group.map Level.strength) / group.length
  let types := firstDedup (group.map Level.type)
  ⟨avgPrice, if types.length = 1 then types.headD "combined" else "combined",
    totalStrength, group.length, types⟩

/-- Grouping loop of `_merge_similar_levels`.  `cg` is the currently open
group in reverse order (its head is the `last_in_group` the next level is
compared against); a level joins the group when its relative price gap to
that last member is below the tolerance. -/
def groupLevels (tol : ℚ) : List Level → List Level → List (List Level)
  | cg, [] => [cg.reverse]
  | cg, cur :: rest =>
    match cg with
    | [] => groupLevels tol [cur] rest
    | last :: _ =>
      if |cur.price - last.price| / last.price < tol then
        groupLevels tol (cur :: cg) rest
      else
        cg.reverse :: groupLevels tol [cur] rest

/-- Embedding of `GannWheel._merge_similar_levels`: sort by price, chain
adjacent levels within tolerance into groups, merge each group. -/
def mergeSimilarLevels (tol : ℚ) (levels : List Level) : List MergedLevel :=
  match levels.insertionSort levelLe with
  | [] => []
  | l :: ls => (groupLevels tol [l] ls).map mergeLevelGroup

/-- Python `points[-10:]`: the last ten elements. -/
def lastTen {α : Type} (l : List α) : List α := l.drop (l.length - 10)

/-- Embedding of `GannWheel._find_historical_key_levels`: historical
extremes at strength 1 plus the recent pivot highs/lows whose touch
strength exceeds 0.1. -/
def findHistoricalKeyLevels (cfg : GannConfig) (data : List Bar) : List Level :=
  let maxPrice := listMax (data.map Bar.High)
  let minPrice := listMin (data.map Bar.Low)
  let (highs, lows) := findPivotPoints data
  [Level.mk maxPrice "historical_high" 1, Level.mk minPrice "historical_low" 1] ++
  ((lastTen highs).filterMap fun high =>
    let strength := calculatePriceLevelStrength cfg.tolerance data high.price
    if (1 : ℚ)/10 < strength then some (Level.mk high.price "pivot_high" strength)
    else none) ++
  ((lastTen lows).filterMap fun low =>
    let strength := calculatePriceLevelStrength cfg.tolerance data low.price
    if (1 : ℚ)/10 < strength then some (Level.mk low.price "pivot_low" strength)
    else none)

/-- Embedding of `GannWheel._calculate_gann_price_levels`: square-grid
levels around the last close whose touch strength exceeds 0.05. -/
def calculateGannPriceLevels (cfg : GannConfig) (data : List Bar) : List Level :=
  let currentPrice := lastClose data
  let squareLevels := calculateGannSquareLevels cfg.sqrtFn currentPrice
  squareLevels.filterMap fun info =>
    let strength := calculatePriceLevelStrength cfg.tolerance data info.price
    if (1 : ℚ)/20 < strength then some (Level.mk info.price "gann_square" strength)
    else none

/-- First maximal-price element of a pivot list (`max(…, key=price)`),
defaulting to the given pivot. -/
def maxByPrice (d : Pivot) (l : List Pivot) : Pivot :=
  l.foldl (fun best p => if best.price < p.price then p else best) d

/-- First minimal-price element of a pivot list (`min(…, key=price)`). -/
def minByPrice (d : Pivot) (l : List Pivot) : Pivot :=
  l.foldl (fun best p => if p.price < best.price then p else best) d

/-- Python `points[-3:]`: the last three elements. -/
def lastThree {α : Type} (l : List α) : List α := l.drop (l.length - 3)

/-- Embedding of `GannWheel._calculate_fibonacci_levels`: retracements of
the most recent significant swing whose touch strength exceeds 0.05. -/
def calculateFibonacciLevels (cfg : GannConfig) (data : List Bar) : List Level :=
  let (highs, lows) := findPivotPoints data
  match highs.getLast?, lows.getLast? with
  | some lastHigh, some lastLow =>
    let recentHigh := if 3 ≤ highs.length then maxByPrice lastHigh (lastThree highs)
      else lastHigh
    let recentLow := if 3 ≤ lows.length then minByPrice lastLow (lastThree lows)
      else lastLow
    let priceRange := recentHigh.price - recentLow.price
    let fibRatios : List ℚ := [236/1000, 382/1000, 1/2, 618/1000, 786/1000]
    fibRatios.filterMap fun r =>
      let retracementPrice := recentHigh.price - priceRange * r
      let strength := calculatePriceLevelStrength cfg.tolerance data retracementPrice
      if (1 : ℚ)/20 < strength then
        some (Level.mk retracementPrice "fibonacci_retracement" strength)
      else none
  | _, _ => []

/-- Result of `_calculate_key_levels`. -/
structure KeyLevels where
  currentPrice : ℚ
  keySupports : List MergedLevel
  keyResistances : List MergedLevel
  strongestSupport : Option MergedLevel
  strongestResistance : Option MergedLevel
  deriving Repr, DecidableEq

/-- Degraded default of `_calculate_key_levels`. -/
def keyLevelsDefault : KeyLevels := ⟨0, [], [], none, none⟩

/-- Embedding of `GannWheel._calculate_key_levels`: cluster the union of
historical, square and Fibonacci levels and keep the five nearest
supports and resistances. -/
def calculateKeyLevels (cfg : GannConfig) (data : List Bar) : KeyLevels :=
  let currentPrice := lastClose data
  let allLevels := findHistoricalKeyLevels cfg data ++
    calculateGannPriceLevels cfg data ++ calculateFibonacciLevels cfg data
  let uniqueLevels := mergeSimilarLevels cfg.tolerance allLevels
  let supports := uniqueLevels.filter fun level => level.price < currentPrice
  let resistances := uniqueLevels.filter fun level => currentPrice < level.price
  let supports := supports.insertionSort fun a b =>
    currentPrice - a.price < currentPrice - b.price
  let resistances := resistances.insertionSort fun a b =>
    a.price - currentPrice < b.price - currentPrice
  ⟨currentPrice, supports.take 5, resistances.take 5, supports.head?, resistances.head?⟩

/-! ### Predictions (`_generate_predictions` and helpers) -/

/-- One heterogeneous prediction record: time-cycle predictions carry the
date-side fields, price/angle predictions the price-side fields; absent
dictionary keys are `none` (the combiner reads them through `.get`). -/
structure GPred where
  type : String
  targetDate : Option ℤ
  cycleDays : Option ℕ
  prediction : Option String
  targetPrice : Option ℚ
  direction : Option String
  strength : ℚ
  distancePct : Option ℚ
  deriving Repr, DecidableEq

/-- Result of `_predict_by_time_cycles`. -/
structure TimePredictions where
  predictions : List GPred
  dominantCycle : Option CycleInfo
  deriving Repr, DecidableEq

/-- Embedding of `GannWheel._predict_by_time_cycles`. -/
def predictByTimeCycles (timeAnalysis : TimeAnalysis) : TimePredictions :=
  ⟨timeAnalysis.nextTimeWindows.map fun w =>
    ⟨"time_cycle", some w.nextDate, some w.cycle, some "potential_turning_point",
      none, none, w.strength, none⟩,
    timeAnalysis.dominantCycle⟩

/-- Result of `_predict_by_price_cycles`. -/
structure PricePredictions where
  predictions : List GPred
  currentPosition : Option PricePosInfo
  deriving Repr, DecidableEq

/-- Embedding of `GannWheel._predict_by_price_cycles`: targets from the
five leading price-cycle levels on the proper side of the close. -/
def predictByPriceCycles (data : List Bar) (priceAnalysis : PriceAnalysis) :
    PricePredictions :=
  let currentPrice := lastClose data
  let preds := (priceAnalysis.keyLevels.take 5).filterMap fun level =>
    if level.type = "resistance" ∧ currentPrice < level.level then
      some (GPred.mk "price_target" none none none (some level.level) (some "up")
        level.strength (some ((level.level - currentPrice) / currentPrice)))
    else if level.type = "support" ∧ level.level < currentPrice then
      some (GPred.mk "price_target" none none none (some level.level) (some "down")
        level.strength (some ((currentPrice - level.level) / currentPrice)))
    else none
  ⟨preds, priceAnalysis.currentPos⟩

/-- Result of `_predict_by_gann_angles`. -/
structure AnglePredictions where
  predictions : List GPred
  currentSupport : Option CurrentAngleLevel
  currentResistance : Option CurrentAngleLevel
  deriving Repr, DecidableEq

/-- Embedding of `GannWheel._predict_by_gann_angles`. -/
def predictByGannAngles (angleAnalysis : AngleAnalysis) : AnglePredictions :=
  let supportPred := angleAnalysis.currentAngleSupport.toList.map fun s =>
    GPred.mk "angle_support" none none none (some s.price) (some "support")
      s.lineInfo.strength (some s.distancePct)
  let resistancePred := angleAnalysis.currentAngleResistance.toList.map fun r =>
    GPred.mk "angle_resistance" none none none (some r.price) (some "resistance")
      r.lineInfo.strength (some r.distancePct)
  ⟨supportPred ++ resistancePred, angleAnalysis.currentAngleSupport,
    angleAnalysis.currentAngleResistance⟩

/-- Result of `_combine_predictions`. -/
structure CombinedPrediction where
  allPredictions : List GPred
  strongestPrediction : Option GPred
  overallTrend : String
  direction : String
  targetPrice : Option ℚ
  trendStrength : ℚ
  upStrength : ℚ
  downStrength : ℚ
  deriving Repr, DecidableEq

/-- Embedding of `GannWheel._combine_predictions`.  The price-target
fallback loop reads `getattr(self, '_current_price', 0)`; that attribute
is never assigned anywhere in the class, so the guard `current_price > 0`
is never met and the loop adds nothing. -/
def combinePredictions (timePred : TimePredictions) (pricePred : PricePredictions)
    (anglePred : AnglePredictions) : CombinedPrediction :=
  let allPredictions := timePred.predictions ++ pricePred.predictions ++
    anglePred.predictions
  let allPredictions := allPredictions.insertionSort fun a b => b.strength < a.strength
  let strongest := allPredictions.head?
  let upStrength := listSum ((allPredictions.filter fun p =>
    p.direction = some "up" ∨ p.direction = some "resistance" ∨
      p.type = "resistance").map GPred.strength)
  let downStrength := listSum ((allPredictions.filter fun p =>
    p.direction = some "down" ∨ p.direction = some "support" ∨
      p.type = "support").map GPred.strength)
  let fallbackPrice : ℚ := 0
  let upStrength := if upStrength = 0 ∧ downStrength = 0 ∧ ¬allPredictions.isEmpty then
    upStrength + listSum ((allPredictions.filter fun p =>
      p.targetPrice.isSome ∧ 0 < fallbackPrice ∧
        (∀ tp ∈ p.targetPrice.toList, fallbackPrice < tp)).map GPred.strength)
    else upStrength
  let downStrength := if upStrength = 0 ∧ downStrength = 0 ∧ ¬allPredictions.isEmpty then
    downStrength + listSum ((allPredictions.filter fun p =>
      p.targetPrice.isSome ∧ 0 < fallbackPrice ∧
        (∀ tp ∈ p.targetPrice.toList, tp ≤ fallbackPrice)).map GPred.strength)
    else downStrength
  let overallTrend :=
    if downStrength * (12/10) < upStrength then "bullish"
    else if upStrength * (12/10) < downStrength then "bearish"
    else "neutral"
  let direction :=
    if downStrength * (12/10) < upStrength then "上涨"
    else if upStrength * (12/10) < downStrength then "下跌"
    else "neutral"
  ⟨allPredictions.take 10, strongest, overallTrend, direction,
    strongest.bind GPred.targetPrice, max upStrength downStrength,
    upStrength, downStrength⟩

/-- Embedding of `GannWheel._calculate_prediction_confidence`. -/
def calculatePredictionConfidence (combined : CombinedPrediction) : ℚ :=
  if combined.allPredictions.isEmpty then 0
  else
    let totalStrength := listSum (combined.allPredictions.map GPred.strength)
    let avgStrength := totalStrength / combined.allPredictions.length
    min ((avgStrength + combined.trendStrength) / 2) 1

/-- Result of `_generate_predictions`; the `Option` fields are the keys
missing from its degraded default
`{'current_price': 0, 'current_date': None, 'combined_prediction': {}}`. -/
structure PredictionsResult where
  currentPrice : ℚ
  currentDate : Option ℤ
  timePredictions : Option TimePredictions
  pricePredictions : Option PricePredictions
  anglePredictions : Option AnglePredictions
  combinedPrediction : Option CombinedPrediction
  confidenceLevel : Option ℚ
  deriving Repr, DecidableEq

/-- Degraded default of `_generate_predictions`. -/
def predictionsDefault : PredictionsResult := ⟨0, none, none, none, none, none, none⟩

/-- Embedding of `GannWheel._generate_predictions`. -/
def generatePredictions (data : List Bar) (timeAnalysis : TimeAnalysis)
    (priceAnalysis : PriceAnalysis) (angleAnalysis : AngleAnalysis) :
    PredictionsResult :=
  let timePred := predictByTimeCycles timeAnalysis
  let pricePred := predictByPriceCycles data priceAnalysis
  let anglePred := predictByGannAngles angleAnalysis
  let combined := combinePredictions timePred pricePred anglePred
  ⟨lastClose data, some (lastDate data), some timePred, some pricePred,
    some anglePred, some combined, some (calculatePredictionConfidence combined)⟩

/-! ### Top level (`GannWheel.analyze_stock`) -/

/-- Value of `data_range` in the analysis result. -/
structure DataRange where
  startDate : ℤ
  endDate : ℤ
  totalDays : ℕ
  deriving Repr, DecidableEq

/-- Full result dictionary of `GannWheel.analyze_stock`.  `analysisDate`
is the wall-clock `datetime.now()` captured at entry. -/
structure GannResult where
  symbol : String
  analysisDate : ℤ
  dataRange : DataRange
  timeAnalysis : TimeAnalysis
  priceAnalysis : PriceAnalysis
  angleAnalysis : AngleAnalysis
  squareAnalysis : SquareAnalysis
  resonanceAnalysis : ResonanceAnalysis
  keyLevels : KeyLevels
  predictions : PredictionsResult
  deriving Repr, DecidableEq

/-- Embedding of `GannWheel.analyze_stock`.  `now` is the wall clock.
The only raised input error is the empty-frame check; there is no column
check, and each sub-analysis has a `try/except` that degrades to its
default.  A stage accessing a missing column raises inside its own
`try` and is therefore replaced by that default. -/
def gannAnalyzeStock (cfg : GannConfig) (symbol : String) (t : Table) (now : ℤ) :
    Except String GannResult :=
  if t.rows.isEmpty then Except.error "股票数据为空"
  else
    let data := t.rows.insertionSort fun a b => a.date < b.date
    let ohlc := t.hasHigh && t.hasLow && t.hasClose
    let timeAnalysis := if t.hasHigh && t.hasLow then analyzeTimeCycles cfg data
      else timeAnalysisDefault
    let priceAnalysis := if ohlc then analyzePriceCycles cfg data
      else priceAnalysisDefault
    let angleAnalysis := if ohlc then analyzeGannAngles cfg data
      else angleAnalysisDefault
    let squareAnalysis := if ohlc then analyzeGannSquare cfg data
      else squareAnalysisDefault
    let resonanceAnalysis :=
      if t.hasHigh && t.hasLow then
        let r := analyzeTimePriceResonance cfg data
        if 2 ≤ r.resonancePoints.length && !t.hasClose then resonanceAnalysisDefault
        else r
      else resonanceAnalysisDefault
    let keyLevels := if ohlc then calculateKeyLevels cfg data else keyLevelsDefault
    let predictions := if t.hasClose then
      generatePredictions data timeAnalysis priceAnalysis angleAnalysis
      else predictionsDefault
    Except.ok
      ⟨symbol, now,
        ⟨dateAt data 0, lastDate data, data.length⟩,
        timeAnalysis, priceAnalysis, angleAnalysis, squareAnalysis,
        resonanceAnalysis, keyLevels, predictions⟩

end GannSpec

namespace GannSpec

/-! ## Volume-price analyzer (`volume_price_analyzer.py`)

Rolling pandas series are embedded as `List (Option ℚ)`, with `none` for
`NaN`; a rolling window of size `n` is valid from position `n - 1` on and
becomes `none` whenever a `NaN` enters it (`min_periods` defaults to the
window size). -/

/-- Window of the last `n` elements ending at position `i`
(`l[i-n+1 .. i]`), when complete. -/
def windowEnd (n : ℕ) (l : List ℚ) (i : ℕ) : Option (List ℚ) :=
  if n ≤ i + 1 ∧ i < l.length then some ((l.drop (i + 1 - n)).take n) else none

/-- Series value at position `i` of an `Option` series. -/
def optAt (s : List (Option ℚ)) (i : ℕ) : Option ℚ := (s.get? i).getD none

/-- Value of `series.iloc[-1]` of an `Option` series. -/
def optLast (s : List (Option ℚ)) : Option ℚ := optAt s (s.length - 1)

/-- Rolling mean of a plain series (`series.rolling(n).mean()`). -/
def rollingMean (n : ℕ) (l : List ℚ) : List (Option ℚ) :=
  (List.range l.length).map fun i => (windowEnd n l i).map listMean

/-- Sample variance (`ddof = 1`) of a window, as used by pandas `std`. -/
def sampleVar (w : List ℚ) : ℚ :=
  let m := listMean w
  listSum (w.map fun x => (x - m) ^ 2) / ((w.length : ℚ) - 1)

/-- Rolling sample standard deviation (`series.rolling(n).std()`);
`sqrtFn` is the numeric square-root kernel. -/
def rollingStd (sqrtFn : ℚ → ℚ) (n : ℕ) (l : List ℚ) : List (Option ℚ) :=
  (List.range l.length).map fun i => (windowEnd n l i).map fun w => sqrtFn (sampleVar w)

/-- Window of the last `n` entries of an `Option` series ending at `i`,
`none` when incomplete or when any entry is `NaN`. -/
def windowEndOpt (n : ℕ) (s : List (Option ℚ)) (i : ℕ) : Option (List ℚ) :=
  if n ≤ i + 1 ∧ i < s.length then
    let w := (s.drop (i + 1 - n)).take n
    if w.all Option.isSome then some (w.map fun x => x.getD 0) else none
  else none

/-- Rolling mean over an `Option` series. -/
def rollingMeanOpt (n : ℕ) (s : List (Option ℚ)) : List (Option ℚ) :=
  (List.range s.length).map fun i => (windowEndOpt n s i).map listMean

/-- Rolling sample standard deviation over an `Option` series. -/
def rollingStdOpt (sqrtFn : ℚ → ℚ) (n : ℕ) (s : List (Option ℚ)) : List (Option ℚ) :=
  (List.range s.length).map fun i =>
    (windowEndOpt n s i).map fun w => sqrtFn (sampleVar w)

/-- Percent-change series (`series.pct_change(fill_method=None)` on raw
data): `NaN` at position 0, `(x_i - x_{i-1}) / x_{i-1}` afterwards. -/
def pctChange (l : List ℚ) : List (Option ℚ) :=
  (List.range l.length).map fun i =>
    if i = 0 then none
    else
      let prev := (l.get? (i - 1)).getD 0
      some (((l.get? i).getD 0 - prev) / prev)

/-- Elementwise binary operation on `Option` series (`NaN` propagates). -/
def optZip (f : ℚ → ℚ → ℚ) (a b : List (Option ℚ)) : List (Option ℚ) :=
  (a.zip b).map fun p =>
    match p.1, p.2 with
    | some x, some y => some (f x y)
    | _, _ => none

/-- Series divided elementwise by an `Option` series (`v / v.rolling…`). -/
def divByOpt (a : List ℚ) (b : List (Option ℚ)) : List (Option ℚ) :=
  optZip (fun x y => x / y) (a.map some) b

/-- Pearson correlation of two complete windows: covariance over the
product of the two standard deviations (two separate square roots, as
pandas computes it); `NaN` when either variance vanishes. -/
def pearson (sqrtFn : ℚ → ℚ) (xs ys : List ℚ) : Option ℚ :=
  let mx := listMean xs
  let my := listMean ys
  let n := xs.length
  let sxy := listSum ((xs.zip ys).map fun p => (p.1 - mx) * (p.2 - my)) / ((n : ℚ) - 1)
  let vx := sampleVar xs
  let vy := sampleVar ys
  if vx = 0 ∨ vy = 0 then none else some (sxy / (sqrtFn vx * sqrtFn vy))

/-- Rolling Pearson correlation
(`a.rolling(n).corr(b)` on two `Option` series). -/
def rollingCorr (sqrtFn : ℚ → ℚ) (n : ℕ) (a b : List (Option ℚ)) : List (Option ℚ) :=
  (List.range a.length).map fun i =>
    match windowEndOpt n a i, windowEndOpt n b i with
    | some xs, some ys => pearson sqrtFn xs ys
    | _, _ => none

/-- Whole-series Pearson correlation (`a.corr(b)`): pairwise-complete
observations, `NaN` when fewer than two remain. -/
def seriesCorr (sqrtFn : ℚ → ℚ) (a b : List (Option ℚ)) : Option ℚ :=
  let pairs := (a.zip b).filterMap fun p =>
    match p.1, p.2 with
    | some x, some y => some (x, y)
    | _, _ => none
  if pairs.length < 2 then none
  else pearson sqrtFn (pairs.map Prod.fst) (pairs.map Prod.snd)

/-- Mean that skips `NaN` entries (pandas `series.mean()`); `NaN` when
nothing remains. -/
def optMean (s : List (Option ℚ)) : Option ℚ :=
  let vals := s.filterMap id
  if vals.isEmpty then none else some (listMean vals)

/-- Configuration of `VolumePriceAnalyzer.__init__`. -/
structure VPConfig where
  volumeMaPeriods : List ℕ
  priceMaPeriods : List ℕ
  divergenceThreshold : ℚ
  volumeSpikeThreshold : ℚ
  correlationWindow : ℕ
  sqrtFn : ℚ → ℚ

/-! ### Basic indicators (`_calculate_basic_indicators`) -/

/-- Value of `current_status` in the basic indicators. -/
structure CurrentStatus where
  currentPrice : ℚ
  currentVolume : ℚ
  avgVolume20 : Option ℚ
  relativeVolumeCurrent : Option ℚ
  priceChangeCurrent : Option ℚ
  deriving Repr, DecidableEq

/-- Result of `_calculate_basic_indicators`. -/
structure BasicIndicators where
  priceChange : List (Option ℚ)
  priceVolatility : List (Option ℚ)
  volumeChange : List (Option ℚ)
  volumeMa : List (ℕ × List (Option ℚ))
  priceMa : List (ℕ × List (Option ℚ))
  relativeVolume : List (Option ℚ)
  volumeRatioSeries : List (Option ℚ)
  priceAmplitude : List (Option ℚ)
  vwap : List ℚ
  currentStatus : CurrentStatus
  deriving Repr, DecidableEq

/-- Embedding of `VolumePriceAnalyzer._calculate_basic_indicators`. -/
def calculateBasicIndicators (cfg : VPConfig) (data : List Bar) : BasicIndicators :=
  let closes := data.map Bar.Close
  let volumes := data.map Bar.Volume
  let priceChange := pctChange closes
  let volumeChange := pctChange volumes
  let relativeVolume := divByOpt volumes (rollingMean 20 volumes)
  let typicalPrice := data.map fun b => (b.High + b.Low + b.Close) / 3
  let tpv := (typicalPrice.zip volumes).map fun p => p.1 * p.2
  let cumTpv := (List.range data.length).map fun i => listSum (tpv.take (i + 1))
  let cumVol := (List.range data.length).map fun i => listSum (volumes.take (i + 1))
  let vwap := (cumTpv.zip cumVol).map fun p => p.1 / p.2
  let prevClose := (List.range data.length).map fun i =>
    if i = 0 then none else some (closeAt data (i - 1))
  ⟨priceChange,
    rollingStdOpt cfg.sqrtFn 20 priceChange,
    volumeChange,
    cfg.volumeMaPeriods.map fun p => (p, rollingMean p volumes),
    cfg.priceMaPeriods.map fun p => (p, rollingMean p closes),
    relativeVolume,
    optZip (fun v pv => v / pv) (volumes.map some)
      ((List.range data.length).map fun i =>
        if i = 0 then none else some (volumeAt data (i - 1))),
    optZip (fun hl pc => hl / pc) ((data.map fun b => b.High - b.Low).map some) prevClose,
    vwap,
    ⟨lastClose data, volumeAt data (data.length - 1),
      optLast (rollingMean 20 volumes), optLast relativeVolume, optLast priceChange⟩⟩

/-! ### Volume-price relation (`_analyze_volume_price_relation` and helpers) -/

/-- One row of `_classify_volume_price_patterns` (rows whose percent
changes are `NaN` are skipped). -/
structure VPPatternRow where
  date : ℤ
  patternType : String
  priceChg : ℚ
  volumeChg : ℚ
  deriving Repr, DecidableEq

/-- Embedding of `VolumePriceAnalyzer._classify_volume_price_patterns`:
±2% price and ±20% volume thresholds. -/
def classifyVolumePricePatterns (data : List Bar) : List VPPatternRow :=
  let priceChange := pctChange (data.map Bar.Close)
  let volumeChange := pctChange (data.map Bar.Volume)
  (pyRange 1 data.length).filterMap fun i =>
    match optAt priceChange i, optAt volumeChange i with
    | some pc, some vc =>
      let patternType :=
        if 1/50 < pc ∧ 1/5 < vc then "price_up_volume_up"
        else if 1/50 < pc ∧ vc < -(1/5) then "price_up_volume_down"
        else if pc < -(1/50) ∧ 1/5 < vc then "price_down_volume_up"
        else if pc < -(1/50) ∧ vc < -(1/5) then "price_down_volume_down"
        else "neutral"
      some ⟨dateAt data i, patternType, pc, vc⟩
    | _, _ => none

/-- Result of `_analyze_volume_price_strength`. -/
structure StrengthAnalysis where
  priceStrength : List (Option ℚ)
  volumeStrength : List (Option ℚ)
  combinedStrength : List (Option ℚ)
  currentStrength : Option ℚ
  deriving Repr, DecidableEq

/-- Embedding of `VolumePriceAnalyzer._analyze_volume_price_strength`. -/
def analyzeVolumePriceStrength (data : List Bar) : StrengthAnalysis :=
  let closes := data.map Bar.Close
  let volumes := data.map Bar.Volume
  let priceChangeAbs := (pctChange closes).map fun x => x.map abs
  let prevClose := (List.range data.length).map fun i =>
    if i = 0 then none else some (closeAt data (i - 1))
  let priceAmplitude := optZip (fun hl pc => hl / pc)
    ((data.map fun b => b.High - b.Low).map some) prevClose
  let priceStrength := optZip (fun a b => (a + b) / 2) priceChangeAbs priceAmplitude
  let volumeStrength := divByOpt volumes (rollingMean 20 volumes)
  let combinedStrength := rollingMeanOpt 5 (optZip (· * ·) priceStrength volumeStrength)
  ⟨priceStrength, volumeStrength, combinedStrength, optLast combinedStrength⟩

/-- Result of `_analyze_volume_price_consistency`. -/
structure ConsistencyAnalysis where
  directionConsistency : List ℕ
  consistencyRatioSeries : List (Option ℚ)
  strengthCorrelation : List (Option ℚ)
  currentConsistency : Option ℚ
  deriving Repr, DecidableEq

/-- Embedding of `VolumePriceAnalyzer._analyze_volume_price_consistency`:
`(price_change > 0) == (volume_change > 0)` as 0/1 (with `NaN > 0` being
`False`), its 20-day rolling mean, and the rolling correlation of the
absolute changes. -/
def analyzeVolumePriceConsistency (cfg : VPConfig) (data : List Bar) :
    ConsistencyAnalysis :=
  let priceChange := pctChange (data.map Bar.Close)
  let volumeChange := pctChange (data.map Bar.Volume)
  let directionConsistency := (priceChange.zip volumeChange).map fun p =>
    if ogt p.1 0 = ogt p.2 0 then (1 : ℕ) else 0
  let consistencyRatioSeries :=
    rollingMean 20 (directionConsistency.map fun n => (n : ℚ))
  let strengthCorrelation := rollingCorr cfg.sqrtFn 20
    (priceChange.map fun x => x.map abs) (volumeChange.map fun x => x.map abs)
  ⟨directionConsistency, consistencyRatioSeries, strengthCorrelation,
    optLast consistencyRatioSeries⟩

/-- Result of `_analyze_volume_price_relation`; `rolling_correlation` is
stored after `dropna()`. -/
structure RelationResult where
  overallCorrelation : Option ℚ
  rollingCorrelation : List ℚ
  currentCorrelation : Option ℚ
  volumePricePatterns : List VPPatternRow
  strengthAnalysis : StrengthAnalysis
  consistencyAnalysis : ConsistencyAnalysis
  deriving Repr, DecidableEq

/-- Embedding of `VolumePriceAnalyzer._analyze_volume_price_relation`. -/
def analyzeVolumePriceRelation (cfg : VPConfig) (data : List Bar) : RelationResult :=
  let priceChange := pctChange (data.map Bar.Close)
  let volumeChange := pctChange (data.map Bar.Volume)
  let rolling := rollingCorr cfg.sqrtFn cfg.correlationWindow priceChange volumeChange
  ⟨seriesCorr cfg.sqrtFn priceChange volumeChange,
    rolling.filterMap id,
    optLast rolling,
    classifyVolumePricePatterns data,
    analyzeVolumePriceStrength data,
    analyzeVolumePriceConsistency cfg data⟩

/-! ### Divergence analysis (`_find_price_extremes`,
`_detect_top_divergence`, `_detect_bottom_divergence`,
`_check_current_divergence_status`, `_evaluate_divergence_strength`,
`_analyze_divergence`) -/

/-- One price extreme found by `_find_price_extremes`: the bar's price
(High or Low), its same-day volume, and its position. -/
structure Extreme where
  date : ℤ
  price : ℚ
  volume : ℚ
  type : String
  index : ℕ
  deriving Repr, DecidableEq

/-- Embedding of `VolumePriceAnalyzer._find_price_extremes` for
`extreme_type = 'high'`: bars (window bars away from both ends) whose
High is `≥` every High within `window` bars on both sides. -/
def findPriceExtremesHigh (data : List Bar) (window : ℕ := 5) : List Extreme :=
  ((pyRange window (data.length - window)).filter (isLocalHigh data window)).map
    fun i => ⟨dateAt data i, highAt data i, volumeAt data i, "high", i⟩

/-- Embedding of `VolumePriceAnalyzer._find_price_extremes` for
`extreme_type = 'low'`. -/
def findPriceExtremesLow (data : List Bar) (window : ℕ := 5) : List Extreme :=
  ((pyRange window (data.length - window)).filter (isLocalLow data window)).map
    fun i => ⟨dateAt data i, lowAt data i, volumeAt data i, "low", i⟩

/-- One divergence record. -/
structure Divergence where
  date : ℤ
  type : String
  price : ℚ
  volume : ℚ
  previousPrice : ℚ
  previousVolume : ℚ
  priceChangePct : ℚ
  volumeChangePct : ℚ
  strength : ℚ
  deriving Repr, DecidableEq

/-- Embedding of `VolumePriceAnalyzer._detect_top_divergence`: for each
consecutive pair of price highs, flag the second one when its price is a
new high but its volume is below `(1 - divergence_threshold)` times the
previous high's volume. -/
def detectTopDivergence (threshold : ℚ) (priceHighs : List Extreme) :
    List Divergence :=
  (priceHighs.zip priceHighs.tail).filterMap fun p =>
    let previous := p.1
    let current := p.2
    if previous.price < current.price ∧
        current.volume < previous.volume * (1 - threshold) then
      some ⟨current.date, "top_divergence", current.price, current.volume,
        previous.price, previous.volume,
        (current.price - previous.price) / previous.price,
        (current.volume - previous.volume) / previous.volume,
        |(current.volume - previous.volume) / previous.volume|⟩
    else none

/-- Embedding of `VolumePriceAnalyzer._detect_bottom_divergence`: flag a
new price low whose volume exceeds `(1 + divergence_threshold)` times the
previous low's volume. -/
def detectBottomDivergence (threshold : ℚ) (priceLows : List Extreme) :
    List Divergence :=
  (priceLows.zip priceLows.tail).filterMap fun p =>
    let previous := p.1
    let current := p.2
    if current.price < previous.price ∧
        previous.volume * (1 + threshold) < current.volume then
      some ⟨current.date, "bottom_divergence", current.price, current.volume,
        previous.price, previous.volume,
        (current.price - previous.price) / previous.price,
        (current.volume - previous.volume) / previous.volume,
        |(current.volume - previous.volume) / previous.volume|⟩
    else none

/-- Result of `_check_current_divergence_status` in its dictionary form;
`daysSince` is absent in the `has_recent_divergence = False` record. -/
structure CurrentDivergence where
  hasRecentDivergence : Bool
  latestDivergence : Option Divergence
  daysSinceDivergence : Option ℤ
  deriving Repr, DecidableEq

/-- First maximal-date element (`max(…, key=lambda x: x['date'])`). -/
def maxByDate (d : Divergence) (l : List Divergence) : Divergence :=
  l.foldl (fun best p => if best.date < p.date then p else best) d

/-- Embedding of `VolumePriceAnalyzer._check_current_divergence_status`
on a frame of at least 30 bars (`data.index[-30]` raises otherwise;
`analyzeDivergence` accounts for that). -/
def checkCurrentDivergenceStatus (data : List Bar) (divergences : List Divergence) :
    Option CurrentDivergence :=
  match divergences with
  | [] => none
  | d :: ds =>
    let cutoff := dateAt data (data.length - 30)
    let recent := (d :: ds).filter fun x => cutoff ≤ x.date
    match recent with
    | [] => some ⟨false, none, none⟩
    | r :: rs =>
      let latest := maxByDate r rs
      some ⟨true, some latest, some (lastDate data - latest.date)⟩

/-- Result of `_evaluate_divergence_strength`; the empty-input branch
returns only the three non-optional keys. -/
structure DivergenceStrength where
  avgStrength : ℚ
  maxStrength : ℚ
  minStrength : Option ℚ
  divergenceFrequency : ℕ
  topDivergenceCount : Option ℕ
  bottomDivergenceCount : Option ℕ
  deriving Repr, DecidableEq

/-- Embedding of `VolumePriceAnalyzer._evaluate_divergence_strength`. -/
def evaluateDivergenceStrength (divergences : List Divergence) : DivergenceStrength :=
  match divergences with
  | [] => ⟨0, 0, none, 0, none, none⟩
  | _ =>
    let strengths := divergences.map Divergence.strength
    ⟨listMean strengths, listMax strengths, some (listMin strengths),
      divergences.length,
      some (divergences.filter fun d => d.type = "top_divergence").length,
      some (divergences.filter fun d => d.type = "bottom_divergence").length⟩

/-- Result of `_analyze_divergence`. -/
structure DivergenceResult where
  divergences : List Divergence
  topDivergences : List Divergence
  bottomDivergences : List Divergence
  currentDivergence : Option CurrentDivergence
  divergenceStrength : DivergenceStrength
  totalDivergences : ℕ
  deriving Repr, DecidableEq

/-- Embedding of `VolumePriceAnalyzer._analyze_divergence`; `none` is the
degraded `{}` of its `except` branch, reached when divergences exist but
the frame is shorter than 30 bars (`data.index[-30]` raises). -/
def analyzeDivergence (cfg : VPConfig) (data : List Bar) : Option DivergenceResult :=
  let priceHighs := findPriceExtremesHigh data
  let priceLows := findPriceExtremesLow data
  let topDivergences := detectTopDivergence cfg.divergenceThreshold priceHighs
  let bottomDivergences := detectBottomDivergence cfg.divergenceThreshold priceLows
  let divergences := (topDivergences ++ bottomDivergences).insertionSort
    fun a b => a.date < b.date
  if ¬divergences.isEmpty ∧ data.length < 30 then none
  else
    some ⟨divergences, topDivergences, bottomDivergences,
      checkCurrentDivergenceStatus data divergences,
      evaluateDivergenceStrength divergences, divergences.length⟩

/-! ### Volume patterns (`_identify_volume_patterns` and the five
pattern identifiers) -/

/-- One volume-pattern record; the fields that only some identifiers set
are `Option`s (an absent dictionary key). -/
structure VPattern where
  startDate : ℤ
  endDate : ℤ
  patternType : String
  strength : ℚ
  volumeFrac : Option ℚ
  priceChange : Option ℚ
  durationDays : Option ℤ
  avgVolumeFrac : Option ℚ
  volume : Option ℚ
  avgVolume : Option ℚ
  declineFrac : Option ℚ
  increaseFrac : Option ℚ
  startVolume : Option ℚ
  endVolume : Option ℚ
  deriving Repr, DecidableEq

/-- Embedding of `VolumePriceAnalyzer._identify_volume_breakout`: volume
above twice its 20-day mean together with a close 2% above its 20-day
mean. -/
def identifyVolumeBreakout (data : List Bar) : List VPattern :=
  let volumeMa := rollingMean 20 (data.map Bar.Volume)
  let priceMa := rollingMean 20 (data.map Bar.Close)
  (pyRange 20 data.length).filterMap fun i =>
    match optAt volumeMa i, optAt priceMa i with
    | some vma, some pma =>
      if vma * 2 < volumeAt data i ∧ pma * (102/100) < closeAt data i then
        some ⟨dateAt data i, dateAt data i, "volume_breakout",
          min (volumeAt data i / vma / 2) 2,
          some (volumeAt data i / vma), some ((closeAt data i - pma) / pma),
          none, none, none, none, none, none, none, none⟩
      else none
    | _, _ => none

/-- Consolidation state machine of `_identify_volume_consolidation`:
walk the low-volume flags, opening a run on a rise and recording it when
it closes after at least 3 days. -/
def consolidationLoop (data : List Bar) (volumeMa : List (Option ℚ)) :
    List (Bool × ℕ) → Bool → ℕ → List VPattern
  | [], _, _ => []
  | (isLow, i) :: rest, inConsol, startIdx =>
    if isLow ∧ ¬inConsol then consolidationLoop data volumeMa rest true i
    else if ¬isLow ∧ inConsol then
      (if 3 ≤ dateAt data (i - 1) - dateAt data startIdx then
        let sliceVols := ((data.map Bar.Volume).drop startIdx).take (i - startIdx)
        let sliceMa := (volumeMa.drop startIdx).take (i - startIdx)
        [(⟨dateAt data startIdx, dateAt data (i - 1), "volume_consolidation", 1,
          none, none, some (dateAt data (i - 1) - dateAt data startIdx),
          (optMean sliceMa).map fun m => listMean sliceVols / m,
          none, none, none, none, none, none⟩ : VPattern)]
      else []) ++ consolidationLoop data volumeMa rest false startIdx
    else consolidationLoop data volumeMa rest inConsol startIdx

/-- Embedding of `VolumePriceAnalyzer._identify_volume_consolidation`:
runs of at least 3 days with volume below 0.7 times its 20-day mean. -/
def identifyVolumeConsolidation (data : List Bar) : List VPattern :=
  let volumeMa := rollingMean 20 (data.map Bar.Volume)
  let lowVolume := (List.range data.length).map fun i =>
    (ogt ((optAt volumeMa i).map fun m => m * (7/10) - volumeAt data i) 0, i)
  consolidationLoop data volumeMa lowVolume false 0

/-- Embedding of `VolumePriceAnalyzer._identify_abnormal_volume_spikes`:
volume above its 60-day mean plus three standard deviations. -/
def identifyAbnormalVolumeSpikes (cfg : VPConfig) (data : List Bar) : List VPattern :=
  let volumes := data.map Bar.Volume
  let volumeMa := rollingMean 60 volumes
  let volumeStd := rollingStd cfg.sqrtFn 60 volumes
  let priceChange := pctChange (data.map Bar.Close)
  (pyRange 60 data.length).filterMap fun i =>
    match optAt volumeMa i, optAt volumeStd i with
    | some vma, some vstd =>
      if vma + 3 * vstd < volumeAt data i then
        some ⟨dateAt data i, dateAt data i, "abnormal_volume_spike",
          min (volumeAt data i / vma / 3) 3,
          some (volumeAt data i / vma), optAt priceChange i,
          none, none, some (volumeAt data i), some vma, none, none, none, none⟩
      else none
    | _, _ => none

/-- Embedding of `VolumePriceAnalyzer._identify_volume_decline_pattern`:
five consecutive non-increasing volumes losing more than 30%. -/
def identifyVolumeDeclinePattern (data : List Bar) : List VPattern :=
  (pyRange 5 data.length).filterMap fun i =>
    let recent := ((data.map Bar.Volume).drop (i - 4)).take 5
    if (recent.zip recent.tail).all fun p => p.2 ≤ p.1 then
      let v0 := recent.headD 0
      let v4 := recent.getLastD 0
      let declineFrac := (v0 - v4) / v0
      if (3 : ℚ)/10 < declineFrac then
        some ⟨dateAt data (i - 4), dateAt data i, "volume_decline",
          min declineFrac 1, none, none, none, none, none, none,
          some declineFrac, none, some v0, some v4⟩
      else none
    else none

/-- Embedding of `VolumePriceAnalyzer._identify_volume_increase_pattern`:
five consecutive non-decreasing volumes gaining more than 50%. -/
def identifyVolumeIncreasePattern (data : List Bar) : List VPattern :=
  (pyRange 5 data.length).filterMap fun i =>
    let recent := ((data.map Bar.Volume).drop (i - 4)).take 5
    if (recent.zip recent.tail).all fun p => p.1 ≤ p.2 then
      let v0 := recent.headD 0
      let v4 := recent.getLastD 0
      let increaseFrac := (v4 - v0) / v0
      if (1 : ℚ)/2 < increaseFrac then
        some ⟨dateAt data (i - 4), dateAt data i, "volume_increase",
          min increaseFrac 2, none, none, none, none, none, none,
          none, some increaseFrac, some v0, some v4⟩
      else none
    else none

/-- Result of `_summarize_patterns` on a nonempty pattern list. -/
structure PatternSummary where
  totalPatterns : ℕ
  patternTypes : List (String × ℕ)
  mostCommonPattern : Option String
  avgStrength : ℚ
  deriving Repr, DecidableEq

/-- Count per pattern type, in first-appearance order (a Python dict
built by insertion). -/
def patternTypeCounts (patterns : List VPattern) : List (String × ℕ) :=
  patterns.foldl
    (fun acc p =>
      if acc.any fun q => q.1 = p.patternType then
        acc.map fun q => if q.1 = p.patternType then (q.1, q.2 + 1) else q
      else acc ++ [(p.patternType, 1)])
    []

/-- Embedding of `VolumePriceAnalyzer._summarize_patterns`; `none` is the
`{}` returned on an empty list. -/
def summarizePatterns (patterns : List VPattern) : Option PatternSummary :=
  match patterns with
  | [] => none
  | _ =>
    let counts := patternTypeCounts patterns
    let mostCommon := (counts.foldl
      (fun best q => match best with
        | none => some q
        | some b => if b.2 < q.2 then some q else best)
      none).map Prod.fst
    some ⟨patterns.length, counts, mostCommon,
      listMean (patterns.map VPattern.strength)⟩

/-- Result of `_identify_volume_patterns`. -/
structure PatternsResult where
  allPatterns : List VPattern
  currentPatterns : List VPattern
  patternSummary : Option PatternSummary
  deriving Repr, DecidableEq

/-- Embedding of `VolumePriceAnalyzer._identify_volume_patterns`; `none`
is the degraded `{}`, reached when patterns exist on a frame shorter than
5 bars (`data.index[-5]` raises inside the current-pattern filter). -/
def identifyVolumePatterns (cfg : VPConfig) (data : List Bar) : Option PatternsResult :=
  let patterns := identifyVolumeBreakout data ++ identifyVolumeConsolidation data ++
    identifyAbnormalVolumeSpikes cfg data ++ identifyVolumeDeclinePattern data ++
    identifyVolumeIncreasePattern data
  let patterns := patterns.insertionSort fun a b => a.startDate < b.startDate
  if ¬patterns.isEmpty ∧ data.length < 5 then none
  else
    some ⟨patterns,
      patterns.filter fun p => dateAt data (data.length - 5) ≤ p.endDate,
      summarizePatterns patterns⟩

/-! ### Price-volume coordination (`_analyze_price_volume_coordination`
and helpers) -/

/-- Counters of `_classify_coordination_levels`. -/
structure CoordLevels where
  excellent : ℕ
  good : ℕ
  fair : ℕ
  poor : ℕ
  veryPoor : ℕ
  deriving Repr, DecidableEq

/-- Embedding of `VolumePriceAnalyzer._get_coordination_level`, applied to
a possibly-`NaN` score: every comparison against `NaN` is `False`, so a
`NaN` score falls through to `'very_poor'`. -/
def getCoordinationLevel (score : Option ℚ) : String :=
  if ogt score (3/2) then "excellent"
  else if ogt score (1/2) then "good"
  else if ogt score (-(1/2)) then "fair"
  else if ogt score (-(3/2)) then "poor"
  else "very_poor"

/-- Embedding of `VolumePriceAnalyzer._classify_coordination_levels`
(counts over the non-`NaN` scores). -/
def classifyCoordinationLevels (scores : List (Option ℚ)) : CoordLevels :=
  (scores.filterMap id).foldl
    (fun acc s =>
      if (3 : ℚ)/2 < s then { acc with excellent := acc.excellent + 1 }
      else if (1 : ℚ)/2 < s then { acc with good := acc.good + 1 }
      else if -(1 : ℚ)/2 < s then { acc with fair := acc.fair + 1 }
      else if -(3 : ℚ)/2 < s then { acc with poor := acc.poor + 1 }
      else { acc with veryPoor := acc.veryPoor + 1 })
    ⟨0, 0, 0, 0, 0⟩

/-- Value of `current_coordination`. -/
structure CurrentCoordination where
  score : Option ℚ
  trend : Option ℚ
  level : String
  deriving Repr, DecidableEq

/-- Result of `_analyze_price_volume_coordination`. -/
structure CoordinationResult where
  coordinationScore : List (Option ℚ)
  coordinationTrend : List (Option ℚ)
  coordinationLevels : CoordLevels
  currentCoordination : CurrentCoordination
  avgCoordination : Option ℚ
  deriving Repr, DecidableEq

/-- Embedding of `VolumePriceAnalyzer._analyze_price_volume_coordination`:
multiply the 20-day z-scores of price and volume, smooth over 3 days. -/
def analyzePriceVolumeCoordination (cfg : VPConfig) (data : List Bar) :
    CoordinationResult :=
  let closes := data.map Bar.Close
  let volumes := data.map Bar.Volume
  let priceNormalized := optZip (fun d s => d / s)
    (optZip (fun c m => c - m) (closes.map some) (rollingMean 20 closes))
    (rollingStd cfg.sqrtFn 20 closes)
  let volumeNormalized := optZip (fun d s => d / s)
    (optZip (fun v m => v - m) (volumes.map some) (rollingMean 20 volumes))
    (rollingStd cfg.sqrtFn 20 volumes)
  let coordinationScore := rollingMeanOpt 3 (optZip (· * ·) priceNormalized volumeNormalized)
  let coordinationTrend := rollingMeanOpt 10 coordinationScore
  ⟨coordinationScore, coordinationTrend,
    classifyCoordinationLevels coordinationScore,
    ⟨optLast coordinationScore, optLast coordinationTrend,
      getCoordinationLevel (optLast coordinationScore)⟩,
    optMean coordinationScore⟩

/-! ### Abnormal volume (`_analyze_abnormal_volume`) -/

/-- One abnormal-volume event. -/
structure VolumeEvent where
  date : ℤ
  type : String
  volume : ℚ
  avgVolume : ℚ
  ratioVal : ℚ
  priceChange : Option ℚ
  deriving Repr, DecidableEq

/-- Result of `_analyze_abnormal_volume`. -/
structure AbnormalResult where
  abnormalEvents : List VolumeEvent
  recentEvents : List VolumeEvent
  spikeCount : ℕ
  dropCount : ℕ
  latestAbnormal : Option VolumeEvent
  deriving Repr, DecidableEq

/-- Embedding of `VolumePriceAnalyzer._analyze_abnormal_volume`: volume
above its 60-day mean plus `volume_spike_threshold` standard deviations,
or below the mean minus one standard deviation.  `none` is the degraded
`{}`, reached when events exist on a frame shorter than 30 bars
(`data.index[-30]` raises in the recent-event filter). -/
def analyzeAbnormalVolume (cfg : VPConfig) (data : List Bar) : Option AbnormalResult :=
  let volumes := data.map Bar.Volume
  let volumeMean := rollingMean 60 volumes
  let volumeStd := rollingStd cfg.sqrtFn 60 volumes
  let priceChange := pctChange (data.map Bar.Close)
  let mkEvent := fun (eventType : String) (i : ℕ) (vma : ℚ) =>
    VolumeEvent.mk (dateAt data i) eventType (volumeAt data i) vma
      (volumeAt data i / vma) (optAt priceChange i)
  let spikeEvents := (List.range data.length).filterMap fun i =>
    match optAt volumeMean i, optAt volumeStd i with
    | some vma, some vstd =>
      if vma + cfg.volumeSpikeThreshold * vstd < volumeAt data i then
        some (mkEvent "volume_spike" i vma)
      else none
    | _, _ => none
  let dropEvents := (List.range data.length).filterMap fun i =>
    match optAt volumeMean i, optAt volumeStd i with
    | some vma, some vstd =>
      if volumeAt data i < vma - vstd then some (mkEvent "volume_drop" i vma)
      else none
    | _, _ => none
  let events := (spikeEvents ++ dropEvents).insertionSort fun a b => a.date < b.date
  if ¬events.isEmpty ∧ data.length < 30 then none
  else
    some ⟨events,
      events.filter fun e => dateAt data (data.length - 30) ≤ e.date,
      spikeEvents.length, dropEvents.length, events.getLast?⟩

/-! ### Volume-price trend (`_analyze_volume_price_trend` and helpers) -/

/-- Result of `_calculate_price_trend`. -/
structure PriceTrend where
  shortTrend : ℚ
  mediumTrend : ℚ
  longTrend : ℚ
  shortDirection : String
  trendStrength : ℚ
  deriving Repr, DecidableEq

/-- Embedding of `VolumePriceAnalyzer._calculate_price_trend`: 5/20/60-day
lookback percent changes of the close. -/
def calculatePriceTrend (data : List Bar) : PriceTrend :=
  let n := data.length
  let lookback := fun (k : ℕ) =>
    if k ≤ n then (lastClose data - closeAt data (n - k)) / closeAt data (n - k)
    else 0
  let shortTrend := lookback 6
  let direction :=
    if (1 : ℚ)/50 < shortTrend then "up"
    else if shortTrend < -(1/50) then "down"
    else "sideways"
  ⟨shortTrend, lookback 21, lookback 61, direction, |shortTrend|⟩

/-- Result of `_calculate_volume_trend`. -/
structure VolumeTrend where
  volumeTrend : ℚ
  direction : String
  recentAvgVolume : ℚ
  previousAvgVolume : ℚ
  deriving Repr, DecidableEq

/-- Embedding of `VolumePriceAnalyzer._calculate_volume_trend`: recent
5-day average volume against the prior 5-day average. -/
def calculateVolumeTrend (data : List Bar) : VolumeTrend :=
  let n := data.length
  let volumes := data.map Bar.Volume
  let recentVolume := if 5 ≤ n then listMean (volumes.drop (n - 5))
    else volumeAt data (n - 1)
  let previousVolume :=
    if 10 ≤ n then listMean ((volumes.drop (n - 10)).take 5)
    else if 5 < n then listMean (volumes.take (n - 5))
    else recentVolume
  let volumeTrend := if 0 < previousVolume then
    (recentVolume - previousVolume) / previousVolume else 0
  let direction :=
    if (1 : ℚ)/5 < volumeTrend then "increasing"
    else if volumeTrend < -(1/5) then "decreasing"
    else "stable"
  ⟨volumeTrend, direction, recentVolume, previousVolume⟩

/-- Result of `_analyze_trend_consistency`. -/
structure TrendConsistency where
  consistency : String
  score : ℚ
  priceDirection : String
  volumeDirection : String
  deriving Repr, DecidableEq

/-- Embedding of `VolumePriceAnalyzer._analyze_trend_consistency`. -/
def analyzeTrendConsistency (priceTrend : PriceTrend) (volumeTrend : VolumeTrend) :
    TrendConsistency :=
  let pd := priceTrend.shortDirection
  let vd := volumeTrend.direction
  let (consistency, score) :=
    if pd = "up" ∧ vd = "increasing" then ("highly_consistent", (1 : ℚ))
    else if pd = "down" ∧ vd = "decreasing" then ("consistent", 8/10)
    else if pd = "up" ∧ vd = "decreasing" then ("divergent", 1/5)
    else if pd = "down" ∧ vd = "increasing" then ("potentially_reversal", 3/10)
    else ("neutral", 1/2)
  ⟨consistency, score, pd, vd⟩

/-- Result of `_calculate_trend_strength`. -/
structure TrendStrength where
  priceStrength : ℚ
  volumeStrength : ℚ
  combinedStrength : ℚ
  strengthLevel : String
  deriving Repr, DecidableEq

/-- Embedding of `VolumePriceAnalyzer._calculate_trend_strength`:
`0.7 · |short price trend| · 100 + 0.3 · min(|volume trend|, 1)`. -/
def calculateTrendStrength (priceTrend : PriceTrend) (volumeTrend : VolumeTrend) :
    TrendStrength :=
  let priceStrength := |priceTrend.shortTrend| * 100
  let volumeStrength := min |volumeTrend.volumeTrend| 1
  let combinedStrength := priceStrength * (7/10) + volumeStrength * (3/10)
  let level :=
    if (3 : ℚ) < combinedStrength then "strong"
    else if (1 : ℚ) < combinedStrength then "moderate"
    else "weak"
  ⟨priceStrength, volumeStrength, combinedStrength, level⟩

/-- Result of `_predict_trend_sustainability`. -/
structure TrendSustainability where
  sustainability : String
  probability : ℚ
  basedOnConsistency : ℚ
  deriving Repr, DecidableEq

/-- Embedding of `VolumePriceAnalyzer._predict_trend_sustainability`. -/
def predictTrendSustainability (trendConsistency : TrendConsistency) :
    TrendSustainability :=
  let s := trendConsistency.score
  if (4 : ℚ)/5 < s then ⟨"high", 4/5, s⟩
  else if (1 : ℚ)/2 < s then ⟨"moderate", 3/5, s⟩
  else ⟨"low", 3/10, s⟩

/-- Embedding of `VolumePriceAnalyzer._determine_overall_trend`. -/
def determineOverallTrend (priceTrend : PriceTrend)
    (trendConsistency : TrendConsistency) : String :=
  let pd := priceTrend.shortDirection
  let c := trendConsistency.consistency
  if pd = "up" ∧ (c = "highly_consistent" ∨ c = "consistent") then "strong_uptrend"
  else if pd = "up" then "weak_uptrend"
  else if pd = "down" ∧ (c = "highly_consistent" ∨ c = "consistent") then
    "strong_downtrend"
  else if pd = "down" then "weak_downtrend"
  else "sideways"

/-- Result of `_analyze_volume_price_trend`. -/
structure TrendResult where
  priceTrend : PriceTrend
  volumeTrend : VolumeTrend
  trendConsistency : TrendConsistency
  trendStrength : TrendStrength
  trendSustainability : TrendSustainability
  overallTrend : String
  deriving Repr, DecidableEq

/-- Embedding of `VolumePriceAnalyzer._analyze_volume_price_trend`. -/
def analyzeVolumePriceTrend (data : List Bar) : TrendResult :=
  let priceTrend := calculatePriceTrend data
  let volumeTrend := calculateVolumeTrend data
  let trendConsistency := analyzeTrendConsistency priceTrend volumeTrend
  ⟨priceTrend, volumeTrend, trendConsistency,
    calculateTrendStrength priceTrend volumeTrend,
    predictTrendSustainability trendConsistency,
    determineOverallTrend priceTrend trendConsistency⟩

/-! ### Comprehensive score (`_calculate_comprehensive_score`, the five
`_score_*` helpers, `_get_comprehensive_rating`) -/

/-- Embedding of `VolumePriceAnalyzer._score_volume_price_relation`.
With a `NaN` correlation or consistency the Python score is `NaN`, and
`min(100, max(0, NaN))` collapses to `0`. -/
def scoreVolumePriceRelation (r : Option RelationResult) : ℚ :=
  match r with
  | none => 50
  | some rr =>
    match rr.currentCorrelation, rr.consistencyAnalysis.currentConsistency with
    | some c, some k => min 100 (max 0 (|c| * 50 + k * 50))
    | _, _ => 0

/-- Embedding of `VolumePriceAnalyzer._score_divergence_risk`.  The outer
`none` models the `AttributeError` raised when `current_divergence` is
Python `None` (a run that found no divergences): `None.get(...)` has no
handler inside the scorer, so the whole scoring step aborts. -/
def scoreDivergenceRisk (d : Option DivergenceResult) : Option ℚ :=
  match d with
  | none => some 0
  | some dd =>
    match dd.currentDivergence with
    | none => none
    | some cd =>
      if cd.hasRecentDivergence then
        let daysSince : ℤ := cd.daysSinceDivergence.getD 30
        some (min 100 (max 0 (100 - (daysSince : ℚ) * 3)))
      else some 20

/-- Embedding of `VolumePriceAnalyzer._score_volume_health`. -/
def scoreVolumeHealth (a : Option AbnormalResult) : ℚ :=
  match a with
  | none => 70
  | some ar =>
    let totalEvents := ar.recentEvents.length
    if totalEvents = 0 then 90
    else if totalEvents ≤ 2 then 70
    else if totalEvents ≤ 5 then 50
    else 30

/-- Embedding of `VolumePriceAnalyzer._score_coordination`. -/
def scoreCoordination (c : Option CoordinationResult) : ℚ :=
  match c with
  | none => 50
  | some cc =>
    let level := cc.currentCoordination.level
    if level = "excellent" then 95
    else if level = "good" then 80
    else if level = "fair" then 60
    else if level = "poor" then 40
    else if level = "very_poor" then 20
    else 50

/-- Embedding of `VolumePriceAnalyzer._score_trend_consistency`. -/
def scoreTrendConsistency (t : Option TrendResult) : ℚ :=
  match t with
  | none => 50
  | some tt => tt.trendConsistency.score * 100

/-- Embedding of `VolumePriceAnalyzer._get_comprehensive_rating`. -/
def getComprehensiveRating (score : ℚ) : String :=
  if 90 ≤ score then "A+"
  else if 80 ≤ score then "A"
  else if 70 ≤ score then "B+"
  else if 60 ≤ score then "B"
  else if 50 ≤ score then "C+"
  else if 40 ≤ score then "C"
  else if 30 ≤ score then "D+"
  else "D"

/-- The five `individual_scores`. -/
structure IndividualScores where
  relationScore : ℚ
  divergenceRiskScore : ℚ
  volumeHealthScore : ℚ
  coordinationScore : ℚ
  trendConsistencyScore : ℚ
  deriving Repr, DecidableEq

/-- Result of `_calculate_comprehensive_score`; the `except` fallback
`{'comprehensive_score': 50, 'rating': 'C'}` carries no
`individual_scores`. -/
structure ScoreResult where
  individualScores : Option IndividualScores
  comprehensiveScore : ℚ
  rating : String
  deriving Repr, DecidableEq

/-- Embedding of `VolumePriceAnalyzer._calculate_comprehensive_score`:
weighted sum (relation 0.25, divergence risk −0.15, health 0.20,
coordination 0.20, trend 0.20) clamped to `[0, 100]`.  When the
divergence-risk scorer raises (no divergences found), the `except`
branch returns the fixed `(50, 'C')` fallback. -/
def calculateComprehensiveScore (r : Option RelationResult)
    (d : Option DivergenceResult) (a : Option AbnormalResult)
    (c : Option CoordinationResult) (t : Option TrendResult) : ScoreResult :=
  match scoreDivergenceRisk d with
  | none => ⟨none, 50, "C"⟩
  | some divergenceScore =>
    let relationScore := scoreVolumePriceRelation r
    let volumeHealthScore := scoreVolumeHealth a
    let coordinationScore := scoreCoordination c
    let trendScore := scoreTrendConsistency t
    let comprehensiveScore := relationScore * (25/100) + divergenceScore * (-(15/100)) +
      volumeHealthScore * (20/100) + coordinationScore * (20/100) + trendScore * (20/100)
    let comprehensiveScore := max 0 (min 100 comprehensiveScore)
    ⟨some ⟨relationScore, divergenceScore, volumeHealthScore, coordinationScore,
        trendScore⟩,
      comprehensiveScore, getComprehensiveRating comprehensiveScore⟩

/-! ### Trading signals (`_generate_trading_signals` and helpers) -/

/-- One trading signal. -/
structure Signal where
  date : ℤ
  signalType : String
  source : String
  strength : ℚ
  description : String
  confidence : ℚ
  deriving Repr, DecidableEq

/-- Decimal formatting to one fractional digit; stands in for Python's
`f'{x:.1f}'` on the float values interpolated into descriptions (the
embedding rounds half up). -/
def fmt1 (q : ℚ) : String :=
  let tenths : ℤ := ⌊q * 10 + 1/2⌋
  toString ((tenths : ℚ) / 10)

/-- Embedding of `VolumePriceAnalyzer._generate_relation_signals`:
strong positive correlation with high consistency buys, negative
correlation with low consistency sells (`NaN` comparisons are `False`). -/
def generateRelationSignals (data : List Bar) (r : Option RelationResult) :
    List Signal :=
  match r with
  | none => []
  | some rr =>
    let c := rr.currentCorrelation
    let k := rr.consistencyAnalysis.currentConsistency
    if ogt c (6/10) ∧ ogt k (7/10) then
      [⟨lastDate data, "buy", "volume_price_relation",
        min (c.getD 0 * k.getD 0) 1, "量价关系良好，呈现强正相关且一致性高", 8/10⟩]
    else if olt c (-(4/10)) ∧ olt k (3/10) then
      [⟨lastDate data, "sell", "volume_price_relation",
        min (|c.getD 0| * (1 - k.getD 0)) 1, "量价关系恶化，呈现负相关且一致性差", 7/10⟩]
    else []

/-- Embedding of `VolumePriceAnalyzer._generate_divergence_signals`.
The outer `none` models the `AttributeError` on `current_divergence =
None` (no divergences found), which aborts the whole signal stage. -/
def generateDivergenceSignals (data : List Bar) (d : Option DivergenceResult) :
    Option (List Signal) :=
  match d with
  | none => some []
  | some dd =>
    match dd.currentDivergence with
    | none => none
    | some cd =>
      if cd.hasRecentDivergence then
        let divergenceType := (cd.latestDivergence.map Divergence.type).getD ""
        let strength := (cd.latestDivergence.map Divergence.strength).getD (1/2)
        let daysSince : ℤ := cd.daysSinceDivergence.getD 30
        if divergenceType = "top_divergence" ∧ daysSince ≤ 10 then
          some [⟨lastDate data, "sell", "top_divergence", strength,
            "检测到顶背离，" ++ toString daysSince ++ "天前发生",
            max (1/2) (1 - (daysSince : ℚ) * (5/100))⟩]
        else if divergenceType = "bottom_divergence" ∧ daysSince ≤ 10 then
          some [⟨lastDate data, "buy", "bottom_divergence", strength,
            "检测到底背离，" ++ toString daysSince ++ "天前发生",
            max (1/2) (1 - (daysSince : ℚ) * (5/100))⟩]
        else some []
      else some []

/-- Embedding of `VolumePriceAnalyzer._generate_pattern_signals`. -/
def generatePatternSignals (_data : List Bar) (p : Option PatternsResult) :
    List Signal :=
  match p with
  | none => []
  | some pr =>
    pr.currentPatterns.foldr
      (fun pattern acc =>
        if pattern.patternType = "volume_breakout" then
          ⟨pattern.startDate, "buy", "volume_breakout", pattern.strength,
            "检测到放量突破模式", 8/10⟩ :: acc
        else if pattern.patternType = "abnormal_volume_spike" then
          if ogt pattern.priceChange (3/100) then
            ⟨pattern.startDate, "buy", "abnormal_volume_with_price_up",
              pattern.strength, "异常放量伴随价格上涨", 7/10⟩ :: acc
          else if olt pattern.priceChange (-(3/100)) then
            ⟨pattern.startDate, "sell", "abnormal_volume_with_price_down",
              pattern.strength, "异常放量伴随价格下跌", 7/10⟩ :: acc
          else acc
        else acc)
      []

/-- Python `events[-3:]`: the last three events. -/
def lastThreeEvents (l : List VolumeEvent) : List VolumeEvent := l.drop (l.length - 3)

/-- Embedding of `VolumePriceAnalyzer._generate_abnormal_volume_signals`:
massive spikes (ratio `> 3`) with a move beyond ±5%. -/
def generateAbnormalVolumeSignals (_data : List Bar) (a : Option AbnormalResult) :
    List Signal :=
  match a with
  | none => []
  | some ar =>
    (lastThreeEvents ar.recentEvents).foldr
      (fun event acc =>
        if event.type = "volume_spike" ∧ 3 < event.ratioVal then
          if ogt event.priceChange (5/100) then
            ⟨event.date, "buy", "massive_volume_spike_up", min (event.ratioVal / 3) 1,
              "巨量上涨，成交量是平均值的" ++ fmt1 event.ratioVal ++ "倍", 3/4⟩ :: acc
          else if olt event.priceChange (-(5/100)) then
            ⟨event.date, "sell", "massive_volume_spike_down", min (event.ratioVal / 3) 1,
              "巨量下跌，成交量是平均值的" ++ fmt1 event.ratioVal ++ "倍", 3/4⟩ :: acc
          else acc
        else acc)
      []

/-- Embedding of `VolumePriceAnalyzer._filter_and_optimize_signals`:
sort by date, keep one signal per `(date, type)` pair (the strongest),
then drop confidence `< 0.5` and strength `< 0.3`. -/
def filterAndOptimizeSignals (signals : List Signal) : List Signal :=
  match signals with
  | [] => []
  | _ =>
    let signals := signals.insertionSort fun a b => a.date < b.date
    let deduped := signals.foldl
      (fun acc s =>
        if acc.any fun e => e.date = s.date ∧ e.signalType = s.signalType then
          acc.map fun e =>
            if e.date = s.date ∧ e.signalType = s.signalType ∧ e.strength < s.strength
            then s else e
        else acc ++ [s])
      []
    (deduped.filter fun s => (1 : ℚ)/2 ≤ s.confidence).filter
      fun s => (3 : ℚ)/10 ≤ s.strength

/-- Embedding of `VolumePriceAnalyzer._get_current_strongest_signal`:
among the signals from the last five days, the one maximizing
`strength × confidence`. -/
def getCurrentStrongestSignal (signals : List Signal) : Option Signal :=
  match signals.getLast? with
  | none => none
  | some lastSignal =>
    let recentSignals := signals.filter fun s => lastSignal.date - 5 ≤ s.date
    (recentSignals.insertionSort fun a b =>
      b.strength * b.confidence < a.strength * a.confidence).head?

/-- Result of `_calculate_signal_statistics` on a nonempty list. -/
structure SignalStats where
  totalSignals : ℕ
  buySignals : ℕ
  sellSignals : ℕ
  avgBuyStrength : ℚ
  avgSellStrength : ℚ
  avgConfidence : ℚ
  signalSources : List String
  deriving Repr, DecidableEq

/-- Embedding of `VolumePriceAnalyzer._calculate_signal_statistics`;
`none` is the `{}` returned on an empty list. -/
def calculateSignalStatistics (signals : List Signal) : Option SignalStats :=
  match signals with
  | [] => none
  | _ =>
    let buySignals := signals.filter fun s => s.signalType = "buy"
    let sellSignals := signals.filter fun s => s.signalType = "sell"
    some ⟨signals.length, buySignals.length, sellSignals.length,
      if buySignals.isEmpty then 0 else listMean (buySignals.map Signal.strength),
      if sellSignals.isEmpty then 0 else listMean (sellSignals.map Signal.strength),
      listMean (signals.map Signal.confidence),
      firstDedup (signals.map Signal.source)⟩

/-- Result of `_generate_recommendation`; the no-signal branch carries
neither `signal_source` nor `signal_date`. -/
structure Recommendation where
  action : String
  confidence : ℚ
  reason : String
  riskLevel : String
  signalSource : Option String
  scoreBasedAdvice : String
  signalDate : Option ℤ
  deriving Repr, DecidableEq

/-- Embedding of `VolumePriceAnalyzer._generate_recommendation`. -/
def generateRecommendation (currentSignal : Option Signal) (score : ScoreResult) :
    Recommendation :=
  let advice := "综合评分" ++ fmt1 score.comprehensiveScore ++ "分（" ++
    score.rating ++ "级）"
  match currentSignal with
  | none => ⟨"hold", 1/2, "当前无明确信号，建议观望", "medium", none, advice, none⟩
  | some s =>
    let (action, riskLevel) :=
      if s.signalType = "buy" then
        if (4 : ℚ)/5 < s.strength ∧ (4 : ℚ)/5 < s.confidence then
          ("strong_buy", "low")
        else if (3 : ℚ)/5 < s.strength then ("buy", "medium")
        else ("weak_buy", "medium_high")
      else
        if (4 : ℚ)/5 < s.strength ∧ (4 : ℚ)/5 < s.confidence then
          ("strong_sell", "low")
        else if (3 : ℚ)/5 < s.strength then ("sell", "medium")
        else ("weak_sell", "medium_high")
    ⟨action, s.confidence, s.description, riskLevel, some s.source, advice,
      some s.date⟩

/-- Result of `_generate_trading_signals`. -/
structure SignalsResult where
  allSignals : List Signal
  filteredSignals : List Signal
  currentSignal : Option Signal
  signalStatistics : Option SignalStats
  recommendation : Recommendation
  deriving Repr, DecidableEq

/-- Embedding of `VolumePriceAnalyzer._generate_trading_signals`; `none`
is the degraded `{}`, reached exactly when the divergence-signal helper
raises (`current_divergence` is Python `None`). -/
def generateTradingSignals (data : List Bar) (r : Option RelationResult)
    (d : Option DivergenceResult) (p : Option PatternsResult)
    (a : Option AbnormalResult) (score : ScoreResult) : Option SignalsResult :=
  match generateDivergenceSignals data d with
  | none => none
  | some divergenceSignals =>
    let allSignals := generateRelationSignals data r ++ divergenceSignals ++
      generatePatternSignals data p ++ generateAbnormalVolumeSignals data a
    let filteredSignals := filterAndOptimizeSignals allSignals
    let currentSignal := getCurrentStrongestSignal filteredSignals
    some ⟨allSignals, filteredSignals, currentSignal,
      calculateSignalStatistics filteredSignals,
      generateRecommendation currentSignal score⟩

/-! ### Top level (`VolumePriceAnalyzer.analyze_stock`) -/

/-- Full result dictionary of `VolumePriceAnalyzer.analyze_stock`; an
`Option` stage holds `none` for the `{}` of a degraded sub-analysis. -/
structure VPResult where
  symbol : String
  analysisDate : ℤ
  dataRange : DataRange
  basicIndicators : BasicIndicators
  volumePriceRelation : Option RelationResult
  divergenceAnalysis : Option DivergenceResult
  volumePatterns : Option PatternsResult
  priceVolumeCoordination : Option CoordinationResult
  abnormalVolume : Option AbnormalResult
  trendAnalysis : Option TrendResult
  comprehensiveScore : ScoreResult
  tradingSignals : Option SignalsResult
  deriving Repr, DecidableEq

/-- Names of the required columns missing from a table, in the order of
`required_columns`. -/
def missingColumns (t : Table) : List String :=
  (([("Open", t.hasOpen), ("High", t.hasHigh), ("Low", t.hasLow),
    ("Close", t.hasClose), ("Volume", t.hasVolume)] : List (String × Bool)).filter
    fun p => !p.2).map Prod.fst

/-- Embedding of `VolumePriceAnalyzer.analyze_stock`.  `now` is the wall
clock.  An empty frame or any missing OHLCV column raises immediately;
each sub-analysis afterwards degrades to its own default on failure. -/
def vpAnalyzeStock (cfg : VPConfig) (symbol : String) (t : Table) (now : ℤ) :
    Except String VPResult :=
  if t.rows.isEmpty then Except.error "股票数据为空"
  else if ¬(missingColumns t).isEmpty then
    Except.error ("缺少必要的数据列: " ++ String.intercalate ", " (missingColumns t))
  else
    let data := t.rows.insertionSort fun a b => a.date < b.date
    let relation := some (analyzeVolumePriceRelation cfg data)
    let divergence := analyzeDivergence cfg data
    let patterns := identifyVolumePatterns cfg data
    let coordination := some (analyzePriceVolumeCoordination cfg data)
    let abnormal := analyzeAbnormalVolume cfg data
    let trend := some (analyzeVolumePriceTrend data)
    let score := calculateComprehensiveScore relation divergence abnormal
      coordination trend
    Except.ok
      ⟨symbol, now, ⟨dateAt data 0, lastDate data, data.length⟩,
        calculateBasicIndicators cfg data,
        relation, divergence, patterns, coordination, abnormal, trend, score,
        generateTradingSignals data relation divergence patterns abnormal score⟩

end GannSpec

namespace GannSpec

/-! ## Price-prediction synthesizer (`price_prediction_analyzer.py`)

Only the fields the verified properties concern — `target_price`,
`direction`, `type`, `confidence` — are carried per prediction; the
purely descriptive `analysis_basis` / `calculation_details` /
`gann_details` / `volume_details` dictionaries are omitted.  A
`target_price` of `none` is a float `NaN` (propagated from a `NaN`
volatility on a too-short frame). -/

/-- Numeric kernels of the synthesizer: square root, tangent of an angle
in degrees, and `round(math.degrees(math.atan(x)), 1)`. -/
structure PPConfig where
  sqrtFn : ℚ → ℚ
  tanFn : ℚ → ℚ
  atanDegFn : ℚ → ℚ

/-- One price prediction. -/
structure PPrediction where
  targetPrice : Option ℚ
  direction : String
  type : String
  confidence : ℤ
  deriving Repr, DecidableEq

/-- Whole-series sample standard deviation with `NaN`s skipped
(`series.std()`); `NaN` when fewer than two valid values remain. -/
def seriesStd (sqrtFn : ℚ → ℚ) (s : List (Option ℚ)) : Option ℚ :=
  let vals := s.filterMap id
  if vals.length ≤ 1 then none else some (sqrtFn (sampleVar vals))

/-- Embedding of
`PricePredictionAnalyzer._calculate_dynamic_confidence`: a type-specific
base plus strength, volatility, volume and alignment adjustments,
truncated to an integer and clamped to `[30, 95]`.  A `NaN` volatility
(`none`) makes Python's `max(-10, min(10, NaN))` evaluate to `10`. -/
def calculateDynamicConfidence (predictionType : String) (strength : ℚ)
    (marketVolatility : Option ℚ) (volumeFactor : ℚ)
    (technicalAlignment : ℚ) : ℤ :=
  let baseConfidence : ℚ :=
    if predictionType = "gann_wheel_angle" then 75
    else if predictionType = "volume_breakout" then 70
    else if predictionType = "fibonacci" then 65
    else if predictionType = "pivot_support" then 60
    else if predictionType = "pivot_resistance" then 60
    else if predictionType = "support_resistance" then 55
    else 50
  let strengthAdjustment := (strength - 1/2) * 35
  let volatilityAdjustment : ℚ :=
    match marketVolatility with
    | none => 10
    | some v => max (-10) (min 10 ((2/100 - v) * 200))
  let volumeAdjustment := max (-5) (min 10 ((volumeFactor - 1) * 10))
  let alignmentAdjustment := (technicalAlignment - 1/2) * 25
  let finalConfidence := baseConfidence + strengthAdjustment + volatilityAdjustment +
    volumeAdjustment + alignmentAdjustment
  max 30 (min 95 (intTrunc finalConfidence))

/-- Rounding to one decimal place (Python `round(x, 1)`; the embedding
rounds half up). -/
def roundTo1 (q : ℚ) : ℚ := (⌊q * 10 + 1/2⌋ : ℤ) / 10

/-- Embedding of `PricePredictionAnalyzer._calculate_gann_angle`:
`round(degrees(atan(price_change · 10)), 1)`. -/
def calculateGannAngle (cfg : PPConfig) (currentPrice targetPrice : ℚ) : ℚ :=
  let priceChange := |targetPrice - currentPrice| / currentPrice
  roundTo1 (cfg.atanDegFn (priceChange * 10))

/-- Market volatility used by the gann/support-resistance target
builders: `data['Close'].pct_change().std() if len(data) > 1 else 0.02`. -/
def marketVolatilityOf (cfg : PPConfig) (data : List Bar) : Option ℚ :=
  if 1 < data.length then seriesStd cfg.sqrtFn (pctChange (data.map Bar.Close))
  else some (2/100)

/-- Volume factor used by the target builders:
`data['Volume'].iloc[-1] / data['Volume'].mean() if len(data) > 1 else 1.0`. -/
def volumeFactorOf (data : List Bar) : ℚ :=
  if 1 < data.length then
    volumeAt data (data.length - 1) / listMean (data.map Bar.Volume)
  else 1

/-- Angle ladder of `_calculate_detailed_gann_wheel_levels`. -/
def detailedGannAngles : List ℚ := [15, 45/2, 30, 45, 60, 135/2, 75, 90]

/-- Embedding of
`PricePredictionAnalyzer._calculate_detailed_gann_wheel_levels`: for each
angle the tangent is replaced by the fixed value 10 from 90° upwards and
capped at 10, the upward multiplier is capped at +50% and the downward
multiplier at −40%. -/
def calculateDetailedGannWheelLevels (cfg : PPConfig) (currentPrice : ℚ)
    (data : List Bar) : List PPrediction :=
  detailedGannAngles.flatMap fun angle =>
    let tanValue : ℚ := if 90 ≤ angle then 10 else cfg.tanFn angle
    let tanValue := min tanValue 10
    let upMultiplier := min (tanValue * (2/100)) (1/2)
    let upTarget := currentPrice * (1 + upMultiplier)
    let downMultiplier := min (tanValue * (15/1000)) (2/5)
    let downTarget := currentPrice * (1 - downMultiplier)
    let strength : ℚ := if angle = 45 ∨ angle = 90 then 9/10 else 7/10
    let marketVolatility := marketVolatilityOf cfg data
    let volumeFactor := volumeFactorOf data
    let technicalAlignment : ℚ :=
      if angle = 45 ∨ angle = 90 ∨ angle = 180 ∨ angle = 270 then 8/10 else 6/10
    let upConfidence := calculateDynamicConfidence "gann_wheel_angle" strength
      marketVolatility volumeFactor technicalAlignment
    let downConfidence := calculateDynamicConfidence "gann_wheel_angle"
      (strength * (9/10)) marketVolatility volumeFactor technicalAlignment
    [⟨some upTarget, "up", "gann_wheel_angle", upConfidence⟩,
      ⟨some downTarget, "down", "gann_wheel_angle", downConfidence⟩]

/-- Embedding of the support half of
`PricePredictionAnalyzer._calculate_gann_price_targets`: the first eight
key supports below the current price, each scored through the dynamic
confidence calculator. -/
def gannSupportTargets (cfg : PPConfig) (data : List Bar)
    (supports : List MergedLevel) : List PPrediction :=
  let currentPrice := lastClose data
  ((supports.take 8).zip (List.range 8)).filterMap fun p =>
    let support := p.1
    let i := p.2
    if 0 < support.price ∧ support.price < currentPrice then
      let gannAngle := calculateGannAngle cfg currentPrice support.price
      let marketVolatility := marketVolatilityOf cfg data
      let volumeFactor := volumeFactorOf data
      let technicalAlignment : ℚ :=
        if gannAngle = 45 ∨ gannAngle = 90 ∨ gannAngle = 180 ∨ gannAngle = 270
        then 8/10 else 6/10
      let baseStrength := max (2/5) (support.strength - (i : ℚ) * (1/10))
      some ⟨some support.price, "down", "gann_" ++ support.type,
        calculateDynamicConfidence "gann_wheel_angle" baseStrength marketVolatility
          volumeFactor technicalAlignment⟩
    else none

/-- Embedding of the resistance half of
`PricePredictionAnalyzer._calculate_gann_price_targets`: the first eight
key resistances above the current price, scored by the static rank
formula `min(90 - 5·i, 95)` — not by the dynamic calculator. -/
def gannResistanceTargets (data : List Bar) (resistances : List MergedLevel) :
    List PPrediction :=
  let currentPrice := lastClose data
  ((resistances.take 8).zip (List.range 8)).filterMap fun p =>
    let resistance := p.1
    let i := p.2
    if 0 < resistance.price ∧ currentPrice < resistance.price then
      some ⟨some resistance.price, "up", "gann_" ++ resistance.type,
        min (90 - (i : ℤ) * 5) 95⟩
    else none

/-- Embedding of `PricePredictionAnalyzer._calculate_gann_price_targets`. -/
def calculateGannPriceTargets (cfg : PPConfig) (data : List Bar)
    (supports resistances : List MergedLevel) : List PPrediction :=
  gannSupportTargets cfg data supports ++ gannResistanceTargets data resistances ++
    calculateDetailedGannWheelLevels cfg (lastClose data) data

/-- Embedding of
`PricePredictionAnalyzer._calculate_detailed_volume_price_levels`: the
closes of the twenty highest-volume bars, scored `min(90, 70 + rank)`. -/
def calculateDetailedVolumePriceLevels (data : List Bar) : List PPrediction :=
  let currentPrice := lastClose data
  let volumeSorted := (data.insertionSort fun a b => b.Volume < a.Volume).take 20
  (volumeSorted.zip (List.range volumeSorted.length)).map fun p =>
    let row := p.1
    let volumeRank := volumeSorted.length - p.2
    ⟨some row.Close, if currentPrice < row.Close then "up" else "down",
      "volume_price_memory", min 90 (70 + (volumeRank : ℤ))⟩

/-- The volume-surge ladder of
`PricePredictionAnalyzer._calculate_volume_price_targets` (the inner
per-ratio block): three targets at fixed confidences `80, 70, 60` when
the current volume exceeds 1.5× the rolling average. -/
def surgeLadder (volatility : Option ℚ) (currentPrice currentVolume : ℚ)
    (typeName : String) (avg : Option ℚ) (sharp : Bool) : List PPrediction :=
  match avg with
  | none => []
  | some a =>
    if (3 : ℚ)/2 < currentVolume / a then
      let multipliers : List ℚ :=
        if sharp then [1/5, 35/100, 1/2] else [15/100, 1/4, 2/5]
      (multipliers.zip (List.range 3)).map fun m =>
        ⟨volatility.map fun v => currentPrice * (1 + v * m.1), "up",
          "volume_breakout_" ++ typeName ++ "_level_" ++ toString (m.2 + 1),
          min (80 - (m.2 : ℤ) * 10) 85⟩
    else []

/-- Embedding of `PricePredictionAnalyzer._calculate_volume_price_targets`.
The divergence-signal block reads `volume_analysis['signals']`, a key the
volume-price engine never writes (its key is `trading_signals`), so that
block never produces predictions; what remains are the volume-surge
ladders and the detailed volume-price levels. -/
def calculateVolumePriceTargets (cfg : PPConfig) (data : List Bar) : List PPrediction :=
  let currentPrice := lastClose data
  let currentVolume := volumeAt data (data.length - 1)
  let volumes := data.map Bar.Volume
  let avgVolume5 := optLast (rollingMean 5 volumes)
  let avgVolume10 := optLast (rollingMean 10 volumes)
  let avgVolume20 := optLast (rollingMean 20 volumes)
  let volatility := (seriesStd cfg.sqrtFn (pctChange (data.map Bar.Close))).map
    fun s => s * cfg.sqrtFn 252
  surgeLadder volatility currentPrice currentVolume "放量" avgVolume20 false ++
    surgeLadder volatility currentPrice currentVolume "温和放量" avgVolume10 false ++
    surgeLadder volatility currentPrice currentVolume "急剧放量" avgVolume5 true ++
    calculateDetailedVolumePriceLevels data

/-- Embedding of `PricePredictionAnalyzer._calculate_fibonacci_targets`:
retracements of the last 60 bars' swing, kept when at least 2% away from
the current price; the golden levels carry the fixed confidence 70, the
others 60. -/
def calculateFibonacciTargets (data : List Bar) : List PPrediction :=
  let recentData := data.drop (data.length - 60)
  let highPrice := listMax (recentData.map Bar.High)
  let lowPrice := listMin (recentData.map Bar.Low)
  let currentPrice := lastClose data
  let priceRange := highPrice - lowPrice
  let fibLevels : List ℚ := [236/1000, 382/1000, 1/2, 618/1000, 786/1000]
  fibLevels.filterMap fun level =>
    let retracementPrice := highPrice - priceRange * level
    if (1 : ℚ)/50 < |retracementPrice - currentPrice| / currentPrice then
      some ⟨some retracementPrice,
        if retracementPrice < currentPrice then "down" else "up",
        "fibonacci_retracement",
        if level = 382/1000 ∨ level = 618/1000 then 70 else 60⟩
    else none

/-- Relative-closeness test on possibly-`NaN` target prices
(`abs(a - b) / b < eps`, `False` when either is `NaN`). -/
def closeTo (eps : ℚ) (a b : Option ℚ) : Bool :=
  match a, b with
  | some tp, some ep => |tp - ep| / ep < eps
  | _, _ => false

/-- Centered 10-bar rolling maximum of the High column
(`rolling(window=10, center=True).max()`): the window at position `i`
covers rows `i-5 .. i+4`. -/
def centeredMax10 (data : List Bar) (i : ℕ) : Option ℚ :=
  if 5 ≤ i ∧ i + 4 < data.length then
    some (listMax (((data.map Bar.High).drop (i - 5)).take 10))
  else none

/-- Centered 10-bar rolling minimum of the Low column. -/
def centeredMin10 (data : List Bar) (i : ℕ) : Option ℚ :=
  if 5 ≤ i ∧ i + 4 < data.length then
    some (listMin (((data.map Bar.Low).drop (i - 5)).take 10))
  else none

/-- Update step of the pivot-point merge loop: bump the confidence of the
first already-kept point within 2% and of the same type (the Python loop
`break`s after the first hit). -/
def pivotMergeStep (point : PPrediction) : List PPrediction → List PPrediction
  | [] => []
  | e :: rest =>
    if closeTo (1/50) point.targetPrice e.targetPrice ∧ point.type = e.type then
      { e with confidence := min (e.confidence + 5) 90 } :: rest
    else e :: pivotMergeStep point rest

/-- Embedding of `PricePredictionAnalyzer._calculate_pivot_points`:
local extremes against a centered 10-bar window, each with the fixed
base confidence 75, merged within 2% per type (each merge adds 5 up to
90), sorted by confidence, top ten. -/
def calculatePivotPoints (data : List Bar) : List PPrediction :=
  let currentPrice := lastClose data
  let window := 10
  let highPoints := (pyRange window (data.length - window)).filterMap fun i =>
    if some (highAt data i) = centeredMax10 data i then
      some (PPrediction.mk (some (highAt data i))
        (if currentPrice < highAt data i then "up" else "down")
        "pivot_resistance" 75)
    else none
  let lowPoints := (pyRange window (data.length - window)).filterMap fun i =>
    if some (lowAt data i) = centeredMin10 data i then
      some (PPrediction.mk (some (lowAt data i))
        (if currentPrice < lowAt data i then "up" else "down")
        "pivot_support" 75)
    else none
  let merged := (highPoints ++ lowPoints).foldl
    (fun acc point =>
      if acc.any fun e => closeTo (1/50) point.targetPrice e.targetPrice ∧
          point.type = e.type then
        pivotMergeStep point acc
      else acc ++ [point])
    []
  (merged.insertionSort fun a b => b.confidence < a.confidence).take 10

/-- Embedding of
`PricePredictionAnalyzer._calculate_support_resistance_targets`: pivot
points at least 1.5% away, re-scored by the dynamic calculator using the
pivot confidence as strength (the top-level `touches` key is absent, so
the alignment defaults through `touches = 1` to 0.4). -/
def calculateSupportResistanceTargets (cfg : PPConfig) (data : List Bar) :
    List PPrediction :=
  let currentPrice := lastClose data
  (calculatePivotPoints data).filterMap fun point =>
    match point.targetPrice with
    | none => none
    | some price =>
      if (15 : ℚ)/1000 < |price - currentPrice| / currentPrice then
        let marketVolatility := marketVolatilityOf cfg data
        let volumeFactor := volumeFactorOf data
        some ⟨some price, if price < currentPrice then "down" else "up",
          "pivot_" ++ point.type,
          calculateDynamicConfidence "support_resistance" (point.confidence : ℚ)
            marketVolatility volumeFactor (2/5)⟩
      else none

/-- Update step of the prediction merge loop (first hit only, as the
Python loop `break`s). -/
def predMergeStep (pred : PPrediction) : List PPrediction → List PPrediction
  | [] => []
  | e :: rest =>
    if closeTo (15/1000) pred.targetPrice e.targetPrice then
      (if e.confidence < pred.confidence then pred else e) :: rest
    else e :: predMergeStep pred rest

/-- Embedding of `PricePredictionAnalyzer._merge_similar_predictions`:
a candidate within 1.5% of the first already-kept one replaces it when
its confidence is higher, otherwise it is dropped; new prices append. -/
def mergeSimilarPredictions (predictions : List PPrediction) : List PPrediction :=
  predictions.foldl
    (fun merged pred =>
      if merged.any fun e => closeTo (15/1000) pred.targetPrice e.targetPrice then
        predMergeStep pred merged
      else merged ++ [pred])
    []

/-- Embedding of `PricePredictionAnalyzer._calculate_key_price_levels`:
all four candidate models, merged, sorted by confidence, top twelve. -/
def calculateKeyPriceLevels (cfg : PPConfig) (data : List Bar)
    (supports resistances : List MergedLevel) : List PPrediction :=
  let predictions := calculateGannPriceTargets cfg data supports resistances ++
    calculateVolumePriceTargets cfg data ++ calculateFibonacciTargets data ++
    calculateSupportResistanceTargets cfg data
  let merged := mergeSimilarPredictions predictions
  (merged.insertionSort fun a b => b.confidence < a.confidence).take 12

end GannSpec

namespace GannSpec

/-! ## Concrete fixtures used by the verified properties -/

/-- A concrete rational square-root kernel used to instantiate the
`sqrtFn` parameter in concrete evaluations (its exact values never matter
for the properties proved). -/
def ratSqrt (q : ℚ) : ℚ :=
  if q ≤ 0 then 0 else (Nat.sqrt q.num.toNat : ℚ) / (Nat.sqrt q.den : ℚ)

/-- A concrete tangent kernel. -/
def tanOne : ℚ → ℚ := fun _ => 1

/-- A tangent kernel agreeing with `tanOne` everywhere except at 90°. -/
def tanOneAlt : ℚ → ℚ := fun a => if a = 90 then 2 else 1

/-- Gann configuration with the `__init__` defaults. -/
def testGannConfig : GannConfig :=
  ⟨defaultTimeCycles, defaultPriceAngles, 144, 1/50, ratSqrt, tanOne⟩

/-- Volume-price configuration with the `__init__` defaults
(`divergence_threshold` 0.15, `volume_spike_threshold` 2.0,
`correlation_window` 20). -/
def testVPConfig : VPConfig := ⟨[5, 10, 20, 60], [5, 10, 20, 60], 15/100, 2, 20, ratSqrt⟩

/-- A single flat bar. -/
def oneBar : Bar := ⟨0, 100, 100, 100, 100, 1000⟩

/-- A one-bar table with every column present. -/
def oneBarTable : Table := ⟨[oneBar], true, true, true, true, true⟩

/-- A nonempty table whose `High` column is missing. -/
def tableNoHigh : Table := ⟨[oneBar], true, false, true, true, true⟩

/-- Bars for the divergence claims: strictly rising integer baseline
with price highs 100 at bar 5 and 110 at bar 17, volume 0 everywhere
(each bar is `⟨date, Open, High, Low, Close, Volume⟩`). -/
def c3bars : List Bar :=
  [⟨0, 0, 0, 0, 0, 0⟩, ⟨1, 1, 1, 0, 1, 0⟩, ⟨2, 2, 2, 0, 2, 0⟩,
    ⟨3, 3, 3, 0, 3, 0⟩, ⟨4, 4, 4, 0, 4, 0⟩, ⟨5, 100, 100, 0, 100, 0⟩,
    ⟨6, 6, 6, 0, 6, 0⟩, ⟨7, 7, 7, 0, 7, 0⟩, ⟨8, 8, 8, 0, 8, 0⟩,
    ⟨9, 9, 9, 0, 9, 0⟩, ⟨10, 10, 10, 0, 10, 0⟩, ⟨11, 11, 11, 0, 11, 0⟩,
    ⟨12, 12, 12, 0, 12, 0⟩, ⟨13, 13, 13, 0, 13, 0⟩, ⟨14, 14, 14, 0, 14, 0⟩,
    ⟨15, 15, 15, 0, 15, 0⟩, ⟨16, 16, 16, 0, 16, 0⟩,
    ⟨17, 110, 110, 0, 110, 0⟩, ⟨18, 18, 18, 0, 18, 0⟩,
    ⟨19, 19, 19, 0, 19, 0⟩, ⟨20, 20, 20, 0, 20, 0⟩, ⟨21, 21, 21, 0, 21, 0⟩,
    ⟨22, 22, 22, 0, 22, 0⟩]

/-- The 60-bar scenario of the spec: a new 60-bar price high on the last
bar (bar 59, price 2000, volume 1000) after a prior high at bar 30
(price 1000, volume 2000), over a strictly rising integer baseline. -/
def c4bars : List Bar :=
  [⟨0, 0, 0, 0, 0, 1000⟩, ⟨1, 1, 1, 0, 1, 1000⟩, ⟨2, 2, 2, 0, 2, 1000⟩,
    ⟨3, 3, 3, 0, 3, 1000⟩, ⟨4, 4, 4, 0, 4, 1000⟩, ⟨5, 5, 5, 0, 5, 1000⟩,
    ⟨6, 6, 6, 0, 6, 1000⟩, ⟨7, 7, 7, 0, 7, 1000⟩, ⟨8, 8, 8, 0, 8, 1000⟩,
    ⟨9, 9, 9, 0, 9, 1000⟩, ⟨10, 10, 10, 0, 10, 1000⟩,
    ⟨11, 11, 11, 0, 11, 1000⟩, ⟨12, 12, 12, 0, 12, 1000⟩,
    ⟨13, 13, 13, 0, 13, 1000⟩, ⟨14, 14, 14, 0, 14, 1000⟩,
    ⟨15, 15, 15, 0, 15, 1000⟩, ⟨16, 16, 16, 0, 16, 1000⟩,
    ⟨17, 17, 17, 0, 17, 1000⟩, ⟨18, 18, 18, 0, 18, 1000⟩,
    ⟨19, 19, 19, 0, 19, 1000⟩, ⟨20, 20, 20, 0, 20, 1000⟩,
    ⟨21, 21, 21, 0, 21, 1000⟩, ⟨22, 22, 22, 0, 22, 1000⟩,
    ⟨23, 23, 23, 0, 23, 1000⟩, ⟨24, 24, 24, 0, 24, 1000⟩,
    ⟨25, 25, 25, 0, 25, 1000⟩, ⟨26, 26, 26, 0, 26, 1000⟩,
    ⟨27, 27, 27, 0, 27, 1000⟩, ⟨28, 28, 28, 0, 28, 1000⟩,
    ⟨29, 29, 29, 0, 29, 1000⟩, ⟨30, 1000, 1000, 0, 1000, 2000⟩,
    ⟨31, 31, 31, 0, 31, 1000⟩, ⟨32, 32, 32, 0, 32, 1000⟩,
    ⟨33, 33, 33, 0, 33, 1000⟩, ⟨34, 34, 34, 0, 34, 1000⟩,
    ⟨35, 35, 35, 0, 35, 1000⟩, ⟨36, 36, 36, 0, 36, 1000⟩,
    ⟨37, 37, 37, 0, 37, 1000⟩, ⟨38, 38, 38, 0, 38, 1000⟩,
    ⟨39, 39, 39, 0, 39, 1000⟩, ⟨40, 40, 40, 0, 40, 1000⟩,
    ⟨41, 41, 41, 0, 41, 1000⟩, ⟨42, 42, 42, 0, 42, 1000⟩,
    ⟨43, 43, 43, 0, 43, 1000⟩, ⟨44, 44, 44, 0, 44, 1000⟩,
    ⟨45, 45, 45, 0, 45, 1000⟩, ⟨46, 46, 46, 0, 46, 1000⟩,
    ⟨47, 47, 47, 0, 47, 1000⟩, ⟨48, 48, 48, 0, 48, 1000⟩,
    ⟨49, 49, 49, 0, 49, 1000⟩, ⟨50, 50, 50, 0, 50, 1000⟩,
    ⟨51, 51, 51, 0, 51, 1000⟩, ⟨52, 52, 52, 0, 52, 1000⟩,
    ⟨53, 53, 53, 0, 53, 1000⟩, ⟨54, 54, 54, 0, 54, 1000⟩,
    ⟨55, 55, 55, 0, 55, 1000⟩, ⟨56, 56, 56, 0, 56, 1000⟩,
    ⟨57, 57, 57, 0, 57, 1000⟩, ⟨58, 58, 58, 0, 58, 1000⟩,
    ⟨59, 2000, 2000, 0, 2000, 1000⟩]

/-- The same scenario with the new high moved to bar 54, the last index
the window-5 extreme scan can report. -/
def c4amBars : List Bar :=
  [⟨0, 0, 0, 0, 0, 1000⟩, ⟨1, 1, 1, 0, 1, 1000⟩, ⟨2, 2, 2, 0, 2, 1000⟩,
    ⟨3, 3, 3, 0, 3, 1000⟩, ⟨4, 4, 4, 0, 4, 1000⟩, ⟨5, 5, 5, 0, 5, 1000⟩,
    ⟨6, 6, 6, 0, 6, 1000⟩, ⟨7, 7, 7, 0, 7, 1000⟩, ⟨8, 8, 8, 0, 8, 1000⟩,
    ⟨9, 9, 9, 0, 9, 1000⟩, ⟨10, 10, 10, 0, 10, 1000⟩,
    ⟨11, 11, 11, 0, 11, 1000⟩, ⟨12, 12, 12, 0, 12, 1000⟩,
    ⟨13, 13, 13, 0, 13, 1000⟩, ⟨14, 14, 14, 0, 14, 1000⟩,
    ⟨15, 15, 15, 0, 15, 1000⟩, ⟨16, 16, 16, 0, 16, 1000⟩,
    ⟨17, 17, 17, 0, 17, 1000⟩, ⟨18, 18, 18, 0, 18, 1000⟩,
    ⟨19, 19, 19, 0, 19, 1000⟩, ⟨20, 20, 20, 0, 20, 1000⟩,
    ⟨21, 21, 21, 0, 21, 1000⟩, ⟨22, 22, 22, 0, 22, 1000⟩,
    ⟨23, 23, 23, 0, 23, 1000⟩, ⟨24, 24, 24, 0, 24, 1000⟩,
    ⟨25, 25, 25, 0, 25, 1000⟩, ⟨26, 26, 26, 0, 26, 1000⟩,
    ⟨27, 27, 27, 0, 27, 1000⟩, ⟨28, 28, 28, 0, 28, 1000⟩,
    ⟨29, 29, 29, 0, 29, 1000⟩, ⟨30, 1000, 1000, 0, 1000, 2000⟩,
    ⟨31, 31, 31, 0, 31, 1000⟩, ⟨32, 32, 32, 0, 32, 1000⟩,
    ⟨33, 33, 33, 0, 33, 1000⟩, ⟨34, 34, 34, 0, 34, 1000⟩,
    ⟨35, 35, 35, 0, 35, 1000⟩, ⟨36, 36, 36, 0, 36, 1000⟩,
    ⟨37, 37, 37, 0, 37, 1000⟩, ⟨38, 38, 38, 0, 38, 1000⟩,
    ⟨39, 39, 39, 0, 39, 1000⟩, ⟨40, 40, 40, 0, 40, 1000⟩,
    ⟨41, 41, 41, 0, 41, 1000⟩, ⟨42, 42, 42, 0, 42, 1000⟩,
    ⟨43, 43, 43, 0, 43, 1000⟩, ⟨44, 44, 44, 0, 44, 1000⟩,
    ⟨45, 45, 45, 0, 45, 1000⟩, ⟨46, 46, 46, 0, 46, 1000⟩,
    ⟨47, 47, 47, 0, 47, 1000⟩, ⟨48, 48, 48, 0, 48, 1000⟩,
    ⟨49, 49, 49, 0, 49, 1000⟩, ⟨50, 50, 50, 0, 50, 1000⟩,
    ⟨51, 51, 51, 0, 51, 1000⟩, ⟨52, 52, 52, 0, 52, 1000⟩,
    ⟨53, 53, 53, 0, 53, 1000⟩, ⟨54, 2000, 2000, 0, 2000, 1000⟩,
    ⟨55, 55, 55, 0, 55, 1000⟩, ⟨56, 56, 56, 0, 56, 1000⟩,
    ⟨57, 57, 57, 0, 57, 1000⟩, ⟨58, 58, 58, 0, 58, 1000⟩,
    ⟨59, 59, 59, 0, 59, 1000⟩]

/-- Two well-separated levels listed in descending price order. -/
def c5levels : List Level := [⟨10, "resistance", 1⟩, ⟨5, "support", 1/2⟩]

/-- Whether an `Except` value is an error. -/
def isErr {ε α : Type} : Except ε α → Bool
  | .error _ => true
  | .ok _ => false

/-- Everything in a Gann analysis result except the wall-clock
`analysis_date` field. -/
def gannStrip (r : GannResult) :=
  (r.symbol, r.dataRange, r.timeAnalysis, r.priceAnalysis, r.angleAnalysis,
    r.squareAnalysis, r.resonanceAnalysis, r.keyLevels, r.predictions)

/-- Everything in a volume-price analysis result except the wall-clock
`analysis_date` field. -/
def vpStrip (r : VPResult) :=
  (r.symbol, r.dataRange, r.basicIndicators, r.volumePriceRelation,
    r.divergenceAnalysis, r.volumePatterns, r.priceVolumeCoordination,
    r.abnormalVolume, r.trendAnalysis, r.comprehensiveScore, r.tradingSignals)

end GannSpec

namespace GannSpec

/-! ## Claims -/

/-- C1, counterexample: on the same one-bar table and default
configuration, two invocations at different wall-clock instants return
different result dictionaries — the `analysis_date` field differs — for
both engines, so the results are not identical as claimed. -/
theorem C1_counterexample :
    (gannAnalyzeStock testGannConfig "T" oneBarTable 0).toOption.map
        GannResult.analysisDate ≠
      (gannAnalyzeStock testGannConfig "T" oneBarTable 1).toOption.map
        GannResult.analysisDate ∧
    (vpAnalyzeStock testVPConfig "T" oneBarTable 0).toOption.map
        VPResult.analysisDate ≠
      (vpAnalyzeStock testVPConfig "T" oneBarTable 1).toOption.map
        VPResult.analysisDate := by
  decide

/-- C1, amended: for a fixed table and configuration, two invocations of
`GannWheel.analyze_stock` and `VolumePriceAnalyzer.analyze_stock` agree
on every field except the `analysis_date` timestamp — in particular the
cycle lists, level lists and signal lists are identical. -/
theorem C1_analyze_pure_modulo_timestamp (gcfg : GannConfig) (vcfg : VPConfig)
    (symbol : String) (t : Table) (now1 now2 : ℤ) :
    (gannAnalyzeStock gcfg symbol t now1).map gannStrip =
      (gannAnalyzeStock gcfg symbol t now2).map gannStrip ∧
    (vpAnalyzeStock vcfg symbol t now1).map vpStrip =
      (vpAnalyzeStock vcfg symbol t now2).map vpStrip := by
  constructor
  · simp only [gannAnalyzeStock]
    split
    · rfl
    · rfl
  · simp only [vpAnalyzeStock]
    split
    · rfl
    · split
      · rfl
      · rfl

/-- C8, counterexample: a nonempty table missing the required `High`
column does not make `GannWheel.analyze_stock` raise — the analysis
returns a complete result with the affected stages degraded — whereas the
claim says an input error is raised exactly when the table is empty or a
required column is missing. -/
theorem C8_counterexample :
    missingColumns tableNoHigh ≠ [] ∧ tableNoHigh.rows ≠ [] ∧
    isErr (gannAnalyzeStock testGannConfig "T" tableNoHigh 0) = false := by
  decide

/-- C8, amended: `VolumePriceAnalyzer.analyze_stock` raises exactly when
the table is empty or a required OHLCV column is missing, but
`GannWheel.analyze_stock` raises exactly when the table is empty — it
performs no column check, and a missing column only degrades the
affected sub-analyses to their defaults inside the per-stage handlers. -/
theorem C8_input_error_conditions (gcfg : GannConfig) (vcfg : VPConfig)
    (symbol : String) (t : Table) (now : ℤ) :
    (isErr (gannAnalyzeStock gcfg symbol t now) = true ↔ t.rows = []) ∧
    (isErr (vpAnalyzeStock vcfg symbol t now) = true ↔
      (t.rows = [] ∨ missingColumns t ≠ [])) := by
  constructor
  · simp only [gannAnalyzeStock]
    split
    · simpa [isErr] using List.isEmpty_iff.mp (by assumption)
    · simp only [isErr]
      constructor
      · intro h
        exact absurd h (by simp)
      · intro h
        exact absurd (List.isEmpty_iff.mpr h) (by assumption)
  · simp only [vpAnalyzeStock]
    split
    · simp only [isErr, true_iff]
      exact Or.inl (List.isEmpty_iff.mp (by assumption))
    · split
      · simp only [isErr, true_iff]
        rename_i hne hmiss
        exact Or.inr fun h => hmiss (by simp [h])
      · simp only [isErr]
        constructor
        · intro h
          exact absurd h (by simp)
        · rename_i hne hmiss
          intro h
          rcases h with h | h
          · exact absurd (List.isEmpty_iff.mpr h) hne
          · exact absurd (by simpa using hmiss) h

end GannSpec

namespace GannSpec

/-- C3, counterexample: on `c3bars` the extreme scan detects exactly two
consecutive highs (bar 5 at price 10 and bar 17 at price 11) whose common
volume 0 satisfies `second = (1 − threshold − 0.01) × first`, yet no top
divergence is flagged — the strict volume test `0 < 0.85 · 0` fails — so
the claim's "exactly one top divergence" is false at zero prior volume. -/
theorem C3_counterexample :
    (findPriceExtremesHigh c3bars 5).map (fun e => (e.index, e.price, e.volume)) =
      [(5, 100, 0), (17, 110, 0)] ∧
    (0 : ℚ) = (1 - 15/100 - 1/100) * 0 ∧
    detectTopDivergence (15/100) (findPriceExtremesHigh c3bars 5) = [] := by
  norm_num [c3bars, findPriceExtremesHigh, isLocalHigh, pyRange,
    List.range_eq_range', List.range', highAt, lowAt, volumeAt, dateAt,
    detectTopDivergence, List.filter, List.filterMap, List.all, List.get?]

/-- C3, amended: for two consecutive detected price highs with the second
price strictly greater, at threshold 0.15 no top divergence is flagged
when the second volume is at least `(1 − threshold)` times the first, and
— provided the first high's volume is positive — exactly one is flagged
when the second volume equals `(1 − threshold − 0.01)` times the first. -/
theorem C3_divergence_directionality (h1 h2 : Extreme) (hp : h1.price < h2.price) :
    (h1.volume * (1 - 15/100) ≤ h2.volume →
      detectTopDivergence (15/100) [h1, h2] = []) ∧
    (0 < h1.volume → h2.volume = (1 - 15/100 - 1/100) * h1.volume →
      (detectTopDivergence (15/100) [h1, h2]).length = 1) := by
  constructor
  · intro hv
    simp only [detectTopDivergence, List.zip_cons_cons, List.tail_cons,
      List.zip_nil_right, List.filterMap_cons, List.filterMap_nil]
    rw [if_neg]
    intro hcon
    exact absurd hcon.2 (not_lt.mpr hv)
  · intro hpos hv
    simp only [detectTopDivergence, List.zip_cons_cons, List.tail_cons,
      List.zip_nil_right, List.filterMap_cons, List.filterMap_nil]
    rw [if_pos]
    · rfl
    · refine ⟨hp, ?_⟩
      rw [hv]
      nlinarith

/-- C3, witness for the amended theorem at concrete highs
(price 10 volume 100, then price 11 with volumes 85 and 84). -/
theorem C3_witness :
    detectTopDivergence (15/100)
      [(⟨0, 10, 100, "high", 5⟩ : Extreme), ⟨1, 11, 85, "high", 17⟩] = [] ∧
    (detectTopDivergence (15/100)
      [(⟨0, 10, 100, "high", 5⟩ : Extreme), ⟨1, 11, 84, "high", 17⟩]).length = 1 :=
  ⟨(C3_divergence_directionality ⟨0, 10, 100, "high", 5⟩ ⟨1, 11, 85, "high", 17⟩
      (by norm_num)).1 (by norm_num),
   (C3_divergence_directionality ⟨0, 10, 100, "high", 5⟩ ⟨1, 11, 84, "high", 17⟩
      (by norm_num)).2 (by norm_num) (by norm_num)⟩

/-- C4, counterexample: on the spec's 60-bar scenario — bar 59 sets the
60-bar high with volume exactly half of the prior high's volume at bar
30 — the divergence analysis records no top divergence at all: the
extreme scan runs over `range(5, 55)` and can never report the last bar,
so no record with bar 59's date (let alone strength 0.5) exists. -/
theorem C4_counterexample :
    listMax (c4bars.map Bar.High) = highAt c4bars 59 ∧
    volumeAt c4bars 59 * 2 = volumeAt c4bars 30 ∧
    (analyzeDivergence testVPConfig c4bars).map DivergenceResult.topDivergences =
      some [] := by
  norm_num [c4bars, listMax, highAt, lowAt, volumeAt, dateAt, analyzeDivergence,
    findPriceExtremesHigh, findPriceExtremesLow, isLocalHigh, isLocalLow,
    detectTopDivergence, detectBottomDivergence, pyRange, List.range_eq_range',
    List.range', List.filter, List.filterMap, List.all, List.get?, testVPConfig,
    checkCurrentDivergenceStatus, evaluateDivergenceStrength, maxByDate,
    List.insertionSort, List.orderedInsert]

/-- C4, amended: with the new high moved to bar 54 — the last index the
window-5 extreme scan can report — the divergence analysis records
exactly one top divergence, dated at bar 54 with strength 0.5. -/
theorem C4_divergence_at_54 :
    (analyzeDivergence testVPConfig c4amBars).map
        (fun r => r.topDivergences.map fun d => (d.date, d.strength)) =
      some [((54 : ℤ), (1 : ℚ)/2)] := by
  norm_num [c4amBars, highAt, lowAt, volumeAt, dateAt, analyzeDivergence,
    findPriceExtremesHigh, findPriceExtremesLow, isLocalHigh, isLocalLow,
    detectTopDivergence, detectBottomDivergence, pyRange, List.range_eq_range',
    List.range', List.filter, List.filterMap, List.all, List.get?, testVPConfig,
    checkCurrentDivergenceStatus, evaluateDivergenceStrength, maxByDate,
    List.insertionSort, List.orderedInsert]

/-- C5, counterexample: `c5levels` lists two levels whose prices differ
by far more than the tolerance fraction of the lower price, yet
`_merge_similar_levels` does not return the list unchanged — it sorts by
price first, so the output price sequence is `[5, 10]`, not `[10, 5]`. -/
theorem C5_counterexample :
    (∀ a ∈ c5levels, ∀ b ∈ c5levels, a ≠ b →
      (1 : ℚ)/50 * min a.price b.price ≤ |a.price - b.price|) ∧
    (mergeSimilarLevels (1/50) c5levels).map MergedLevel.price ≠
      c5levels.map Level.price := by
  norm_num [c5levels, mergeSimilarLevels, groupLevels, mergeLevelGroup,
    firstDedup, listSum, listMean, List.insertionSort, List.orderedInsert,
    levelLe, min_def, GannSpec.Level.mk.injEq]

/-- C6, counterexample: on a one-bar table the analysis finds zero
divergences, `current_divergence` is Python `None`, and the scoring
step's `None.get` failure lands in its `except` fallback: the result is
score 50 with rating `'C'`, while the documented cutoffs map 50 to
`'C+'` — so the rating does not equal the cutoffs applied to the score
on the degraded-computation path. -/
theorem C6_counterexample :
    (vpAnalyzeStock testVPConfig "T" oneBarTable 0).toOption.map (fun r =>
      (r.divergenceAnalysis.map DivergenceResult.totalDivergences,
        r.comprehensiveScore.comprehensiveScore, r.comprehensiveScore.rating,
        getComprehensiveRating r.comprehensiveScore.comprehensiveScore)) =
      some (some 0, 50, "C", "C+") := by
  decide

end GannSpec

namespace GannSpec

/-- Merging a one-element group keeps its price, strength and type. -/
theorem mergeLevelGroup_singleton (l : Level) :
    mergeLevelGroup [l] = ⟨l.price, l.type, l.strength, 1, [l.type]⟩ := by
  simp [mergeLevelGroup, listSum, listMean, firstDedup]

/-- When every adjacent pair of the (sorted) tail is separated by at
least the tolerance, the grouping loop produces only singleton groups. -/
theorem groupLevels_singletons (tol : ℚ) :
    ∀ (ls : List Level) (l : Level),
      List.Chain' (fun a b => tol ≤ |b.price - a.price| / a.price) (l :: ls) →
      groupLevels tol [l] ls = (l :: ls).map fun x => [x] := by
  intro ls
  induction ls with
  | nil => intro l _; simp [groupLevels]
  | cons cur rest ih =>
    intro l hchain
    rw [List.chain'_cons] at hchain
    simp only [groupLevels, List.reverse_singleton, if_neg (not_lt.mpr hchain.1)]
    rw [ih cur hchain.2]
    rfl

/-- C5, amended: on a level list sorted ascending by price in which every
adjacent pair's relative price difference is at least the tolerance,
`_merge_similar_levels` returns the levels in order, each as a singleton
group keeping its price, strength and type (with count 1). -/
theorem C5_merge_keeps_separated_levels (tol : ℚ) (levels : List Level)
    (hsorted : List.Sorted levelLe levels)
    (hsep : List.Chain' (fun a b => tol ≤ |b.price - a.price| / a.price) levels) :
    mergeSimilarLevels tol levels =
      levels.map fun l => ⟨l.price, l.type, l.strength, 1, [l.type]⟩ := by
  unfold mergeSimilarLevels
  rw [hsorted.insertionSort_eq]
  cases levels with
  | nil => rfl
  | cons l ls =>
    show List.map mergeLevelGroup (groupLevels tol [l] ls) = _
    rw [groupLevels_singletons tol ls l hsep, List.map_map]
    simp [Function.comp, mergeLevelGroup_singleton]

/-- Two separated levels in ascending order. -/
def c5wLevels : List Level := [⟨5, "support", 1/2⟩, ⟨10, "resistance", 1⟩]

/-- C5, witness: the amended theorem applied to a concrete sorted,
separated two-level list. -/
theorem C5_witness :
    mergeSimilarLevels (1/50) c5wLevels =
      c5wLevels.map fun l => ⟨l.price, l.type, l.strength, 1, [l.type]⟩ :=
  C5_merge_keeps_separated_levels (1/50) c5wLevels
    (by simp [c5wLevels, List.Sorted, levelLe]; norm_num)
    (by simp [c5wLevels, List.chain'_cons]; norm_num)

/-- C6, amended: the comprehensive score always lies in `[0, 100]`, and
on the normal path (the divergence-risk scorer did not raise) the rating
equals the documented cutoffs applied to the score; but on the degraded
path — reached whenever the analysis found no divergences — the result
is the fixed pair `(50, 'C')`, which the cutoffs contradict (they map 50
to `'C+'`). -/
theorem C6_score_bounds_and_rating (r : Option RelationResult)
    (d : Option DivergenceResult) (a : Option AbnormalResult)
    (c : Option CoordinationResult) (t : Option TrendResult) :
    (0 ≤ (calculateComprehensiveScore r d a c t).comprehensiveScore ∧
      (calculateComprehensiveScore r d a c t).comprehensiveScore ≤ 100) ∧
    ((calculateComprehensiveScore r d a c t).individualScores.isSome = true →
      (calculateComprehensiveScore r d a c t).rating =
        getComprehensiveRating (calculateComprehensiveScore r d a c t).comprehensiveScore) ∧
    ((calculateComprehensiveScore r d a c t).individualScores = none →
      (calculateComprehensiveScore r d a c t).comprehensiveScore = 50 ∧
      (calculateComprehensiveScore r d a c t).rating = "C") := by
  cases hd : scoreDivergenceRisk d with
  | none =>
    simp only [calculateComprehensiveScore, hd]
    refine ⟨⟨by norm_num, by norm_num⟩, ?_, fun _ => by constructor <;> trivial⟩
    intro h
    simp at h
  | some v =>
    simp only [calculateComprehensiveScore, hd]
    refine ⟨⟨le_max_left 0 _, ?_⟩, fun _ => by trivial, ?_⟩
    · exact max_le (by norm_num) (min_le_left 100 _)
    · intro h
      simp at h

/-- C6, witness: the amended theorem at degraded (`{}`) stage inputs —
the defaults give score 46.5 and the cutoffs rate it `'C'`. -/
theorem C6_witness :
    0 ≤ (calculateComprehensiveScore none none none none none).comprehensiveScore ∧
    (calculateComprehensiveScore none none none none none).comprehensiveScore ≤ 100 ∧
    (calculateComprehensiveScore none none none none none).rating =
      getComprehensiveRating
        (calculateComprehensiveScore none none none none none).comprehensiveScore :=
  ⟨(C6_score_bounds_and_rating none none none none none).1.1,
   (C6_score_bounds_and_rating none none none none none).1.2,
   (C6_score_bounds_and_rating none none none none none).2.1 (by decide)⟩

end GannSpec

namespace GannSpec

/-- Membership in a Python range. -/
theorem mem_pyRange {a b i : ℕ} : i ∈ pyRange a b ↔ a ≤ i ∧ i < b := by
  simp only [pyRange, List.mem_range']
  constructor
  · rintro ⟨j, hj, rfl⟩
    omega
  · intro h
    exact ⟨i - a, by omega, by omega⟩

/-- A Python range has no duplicates. -/
theorem pyRange_nodup (a b : ℕ) : (pyRange a b).Nodup := by
  simpa [pyRange] using List.nodup_range' (s := a) (n := b - a)

/-- The window test of the pivot scan, spelled with offsets `1..w`. -/
theorem isLocalHigh_iff (data : List Bar) (w i : ℕ) :
    isLocalHigh data w i = true ↔
      ∀ j : ℕ, 1 ≤ j → j ≤ w →
        highAt data (i - j) ≤ highAt data i ∧ highAt data (i + j) ≤ highAt data i := by
  simp only [isLocalHigh, Bool.and_eq_true, List.all_eq_true, List.mem_range,
    decide_eq_true_eq]
  constructor
  · rintro ⟨h1, h2⟩ j hj1 hjw
    have hj : j - 1 < w := by omega
    have e : j - 1 + 1 = j := by omega
    exact ⟨by simpa [e] using h1 (j - 1) hj, by simpa [e] using h2 (j - 1) hj⟩
  · intro h
    exact ⟨fun j hj => (h (j + 1) (by omega) (by omega)).1,
      fun j hj => (h (j + 1) (by omega) (by omega)).2⟩

/-- The low-side window test, spelled with offsets `1..w`. -/
theorem isLocalLow_iff (data : List Bar) (w i : ℕ) :
    isLocalLow data w i = true ↔
      ∀ j : ℕ, 1 ≤ j → j ≤ w →
        lowAt data i ≤ lowAt data (i - j) ∧ lowAt data i ≤ lowAt data (i + j) := by
  simp only [isLocalLow, Bool.and_eq_true, List.all_eq_true, List.mem_range,
    decide_eq_true_eq]
  constructor
  · rintro ⟨h1, h2⟩ j hj1 hjw
    have hj : j - 1 < w := by omega
    have e : j - 1 + 1 = j := by omega
    exact ⟨by simpa [e] using h1 (j - 1) hj, by simpa [e] using h2 (j - 1) hj⟩
  · intro h
    exact ⟨fun j hj => (h (j + 1) (by omega) (by omega)).1,
      fun j hj => (h (j + 1) (by omega) (by omega)).2⟩

/-- Mapping the index projection over pivots built from indices is the identity. -/
theorem map_pivot_index (f : ℕ → Pivot) (hf : ∀ i, (f i).index = i) :
    ∀ l : List ℕ, (l.map f).map Pivot.index = l := by
  intro l
  induction l with
  | nil => rfl
  | cons x xs ih => simp [ih, hf]

/-- Index view of the high-pivot list. -/
theorem highs_indices (data : List Bar) (w : ℕ) :
    (findPivotPoints data w).1.map Pivot.index =
      (pyRange w (data.length - w)).filter (isLocalHigh data w) := by
  simp only [findPivotPoints]
  exact map_pivot_index _ (fun _ => rfl) _

/-- Index view of the low-pivot list. -/
theorem lows_indices (data : List Bar) (w : ℕ) :
    (findPivotPoints data w).2.map Pivot.index =
      (pyRange w (data.length - w)).filter (isLocalLow data w) := by
  simp only [findPivotPoints]
  exact map_pivot_index _ (fun _ => rfl) _

/-- A nodup list whose only satisfying member is `a` filters to `[a]`. -/
theorem filter_eq_singleton_of {p : ℕ → Bool} {a : ℕ} :
    ∀ {l : List ℕ}, l.Nodup → a ∈ l → p a = true →
      (∀ b ∈ l, b ≠ a → p b = false) → l.filter p = [a]
  | [], _, ha, _, _ => absurd ha (List.not_mem_nil a)
  | x :: xs, hnd, ha, hpa, hother => by
    rcases List.nodup_cons.mp hnd with ⟨hx, hxs⟩
    rcases eq_or_ne x a with rfl | hne
    · rw [List.filter_cons_of_pos hpa]
      have hnil : xs.filter p = [] := by
        rw [List.filter_eq_nil_iff]
        intro b hb
        have hbx : b ≠ x := fun h => hx (h ▸ hb)
        simp [hother b (List.mem_cons_of_mem x hb) hbx]
      rw [hnil]
    · have ha' : a ∈ xs := by
        rcases List.mem_cons.mp ha with h | h
        · exact absurd h.symm hne
        · exact h
      rw [List.filter_cons_of_neg (by simp [hother x (List.mem_cons_self x xs) hne])]
      exact filter_eq_singleton_of hxs ha' hpa
        (fun b hb hbne => hother b (List.mem_cons_of_mem x hb) hbne)

end GannSpec

namespace GannSpec

/-- A strictly increasing-then-decreasing High series has exactly one
local-high index in the scanned range, at the peak. -/
theorem unimodal_high_pivot (data : List Bar) (w peak : ℕ) (hw : 0 < w)
    (h1 : w ≤ peak) (h2 : peak + w < data.length)
    (hinc : ∀ i, i < peak → highAt data i < highAt data (i + 1))
    (hdec : ∀ i, peak ≤ i → i + 1 < data.length → highAt data (i + 1) < highAt data i) :
    (pyRange w (data.length - w)).filter (isLocalHigh data w) = [peak] := by
  have step_inc : ∀ d i, i + d ≤ peak → highAt data i ≤ highAt data (i + d) := by
    intro d
    induction d with
    | zero => intro i _; simp
    | succ n ih =>
      intro i h
      have ha : highAt data i ≤ highAt data (i + n) := ih i (by omega)
      have hb : highAt data (i + n) < highAt data (i + n + 1) := hinc (i + n) (by omega)
      calc highAt data i ≤ highAt data (i + n) := ha
        _ ≤ highAt data (i + (n + 1)) := le_of_lt hb
  have step_dec : ∀ d i, peak ≤ i → i + d < data.length →
      highAt data (i + d) ≤ highAt data i := by
    intro d
    induction d with
    | zero => intro i _ _; simp
    | succ n ih =>
      intro i hp hl
      have ha : highAt data (i + n) ≤ highAt data i := ih i hp (by omega)
      have hb : highAt data (i + n + 1) < highAt data (i + n) := hdec (i + n) (by omega) (by omega)
      calc highAt data (i + (n + 1)) ≤ highAt data (i + n) := le_of_lt hb
        _ ≤ highAt data i := ha
  apply filter_eq_singleton_of (pyRange_nodup _ _)
  · exact mem_pyRange.mpr ⟨h1, by omega⟩
  · rw [isLocalHigh_iff]
    intro j hj1 hjw
    constructor
    · have h := step_inc j (peak - j) (by omega)
      rwa [Nat.sub_add_cancel (le_trans hjw h1)] at h
    · exact step_dec j peak le_rfl (by omega)
  · intro q hq hqe
    rw [Bool.eq_false_iff]
    intro hcontra
    have hiff := (isLocalHigh_iff data w q).mp hcontra
    rcases mem_pyRange.mp hq with ⟨hq1, hq2⟩
    rcases Nat.lt_or_ge q peak with hlt | hge
    · exact absurd (hiff 1 le_rfl hw).2 (not_le.mpr (hinc q hlt))
    · have hqp : peak < q := lt_of_le_of_ne hge (Ne.symm hqe)
      have hle : highAt data (q - 1) ≤ highAt data q := (hiff 1 le_rfl hw).1
      have hd : highAt data q < highAt data (q - 1) := by
        have h := hdec (q - 1) (by omega) (by omega)
        rwa [Nat.sub_add_cancel (by omega)] at h
      exact absurd hle (not_le.mpr hd)

/-- C2: the pivot finder reports index `i` as a high pivot iff
`w ≤ i` and `i + w < len(data)` and `High[i]` is `≥` every `High` within
`w` bars on both sides (symmetrically for lows with `Low` and `≤`); hence
no pivot lies within `w` bars of either boundary, and on a strictly
increasing-then-decreasing High series exactly one high pivot is found,
at the peak. -/
theorem C2_pivot_window (data : List Bar) (w : ℕ) (hw : 0 < w) :
    (∀ i : ℕ, i ∈ (findPivotPoints data w).1.map Pivot.index ↔
        (w ≤ i ∧ i + w < data.length ∧ ∀ j, 1 ≤ j → j ≤ w →
          highAt data (i - j) ≤ highAt data i ∧ highAt data (i + j) ≤ highAt data i)) ∧
    (∀ i : ℕ, i ∈ (findPivotPoints data w).2.map Pivot.index ↔
        (w ≤ i ∧ i + w < data.length ∧ ∀ j, 1 ≤ j → j ≤ w →
          lowAt data i ≤ lowAt data (i - j) ∧ lowAt data i ≤ lowAt data (i + j))) ∧
    (∀ p ∈ (findPivotPoints data w).1, w ≤ p.index ∧ p.index + w < data.length) ∧
    (∀ p ∈ (findPivotPoints data w).2, w ≤ p.index ∧ p.index + w < data.length) ∧
    (∀ peak : ℕ, w ≤ peak → peak + w < data.length →
      (∀ i, i < peak → highAt data i < highAt data (i + 1)) →
      (∀ i, peak ≤ i → i + 1 < data.length → highAt data (i + 1) < highAt data i) →
      (findPivotPoints data w).1.map Pivot.index = [peak]) := by
  refine ⟨?_, ?_, ?_, ?_, ?_⟩
  · intro i
    rw [highs_indices]
    simp only [List.mem_filter, mem_pyRange, isLocalHigh_iff]
    constructor
    · rintro ⟨⟨ha, hb⟩, hc⟩
      exact ⟨ha, by omega, hc⟩
    · rintro ⟨ha, hb, hc⟩
      exact ⟨⟨ha, by omega⟩, hc⟩
  · intro i
    rw [lows_indices]
    simp only [List.mem_filter, mem_pyRange, isLocalLow_iff]
    constructor
    · rintro ⟨⟨ha, hb⟩, hc⟩
      exact ⟨ha, by omega, hc⟩
    · rintro ⟨ha, hb, hc⟩
      exact ⟨⟨ha, by omega⟩, hc⟩
  · intro p hp
    rcases List.mem_map.mp hp with ⟨i, hi, rfl⟩
    rcases mem_pyRange.mp (List.mem_filter.mp hi).1 with ⟨ha, hb⟩
    exact ⟨ha, by simpa using by omega⟩
  · intro p hp
    rcases List.mem_map.mp hp with ⟨i, hi, rfl⟩
    rcases mem_pyRange.mp (List.mem_filter.mp hi).1 with ⟨ha, hb⟩
    exact ⟨ha, by simpa using by omega⟩
  · intro peak h1 h2 hinc hdec
    rw [highs_indices]
    exact unimodal_high_pivot data w peak hw h1 h2 hinc hdec

end GannSpec

namespace GannSpec

/-- Nine-bar series whose High column is `1,2,3,4,5,4,3,2,1`. -/
def c2bars : List Bar :=
  [⟨0, 1, 1, 1, 1, 0⟩, ⟨1, 2, 2, 2, 2, 0⟩, ⟨2, 3, 3, 3, 3, 0⟩,
   ⟨3, 4, 4, 4, 4, 0⟩, ⟨4, 5, 5, 5, 5, 0⟩, ⟨5, 4, 4, 4, 4, 0⟩,
   ⟨6, 3, 3, 3, 3, 0⟩, ⟨7, 2, 2, 2, 2, 0⟩, ⟨8, 1, 1, 1, 1, 0⟩]

/-- On `c2bars` with window 2 the pivot finder reports exactly one high
pivot, at the peak index 4. -/
theorem C2_witness : (findPivotPoints c2bars 2).1.map Pivot.index = [4] :=
  (C2_pivot_window c2bars 2 (by decide)).2.2.2.2 4 (by decide) (by decide)
    (by intro i hi; interval_cases i <;> decide)
    (by
      intro i h1 h2
      have h3 : i < 8 := by
        have hl : c2bars.length = 9 := rfl
        omega
      interval_cases i <;> decide)

end GannSpec

namespace GannSpec

/-- A list bounded above termwise has sum at most `length * bound`. -/
theorem listSum_le_mul (l : List ℚ) (M : ℚ) (h : ∀ x ∈ l, x ≤ M) :
    listSum l ≤ l.length * M := by
  induction l with
  | nil => simp [listSum]
  | cons a l ih =>
    have ha := h a (List.mem_cons_self _ _)
    have hl := ih (fun x hx => h x (List.mem_cons_of_mem _ hx))
    simp only [listSum, List.foldr_cons, List.length_cons] at hl ⊢
    push_cast
    have he : ((l.length : ℚ) + 1) * M = l.length * M + M := by ring
    rw [he]
    linarith

/-- A list bounded below termwise has sum at least `length * bound`. -/
theorem mul_le_listSum (l : List ℚ) (m : ℚ) (h : ∀ x ∈ l, m ≤ x) :
    l.length * m ≤ listSum l := by
  induction l with
  | nil => simp [listSum]
  | cons a l ih =>
    have ha := h a (List.mem_cons_self _ _)
    have hl := ih (fun x hx => h x (List.mem_cons_of_mem _ hx))
    simp only [listSum, List.foldr_cons, List.length_cons] at hl ⊢
    push_cast
    have he : ((l.length : ℚ) + 1) * m = l.length * m + m := by ring
    rw [he]
    linarith

/-- The merged mean price of a nonempty group is at most any termwise upper bound. -/
theorem mergeLevelGroup_price_le (g : List Level) (M : ℚ) (hne : g ≠ [])
    (h : ∀ x ∈ g, x.price ≤ M) : (mergeLevelGroup g).price ≤ M := by
  have hlen0 : 0 < g.length := List.length_pos.mpr hne
  have hlen : 0 < (g.length : ℚ) := by exact_mod_cast hlen0
  show listSum (g.map Level.price) / (g.length : ℚ) ≤ M
  rw [div_le_iff hlen]
  have hs := listSum_le_mul (g.map Level.price) M
    (by intro x hx; rcases List.mem_map.mp hx with ⟨a, ha, rfl⟩; exact h a ha)
  rw [List.length_map] at hs
  linarith

/-- The merged mean price of a nonempty group is at least any termwise lower bound. -/
theorem le_mergeLevelGroup_price (g : List Level) (m : ℚ) (hne : g ≠ [])
    (h : ∀ x ∈ g, m ≤ x.price) : m ≤ (mergeLevelGroup g).price := by
  have hlen0 : 0 < g.length := List.length_pos.mpr hne
  have hlen : 0 < (g.length : ℚ) := by exact_mod_cast hlen0
  show m ≤ listSum (g.map Level.price) / (g.length : ℚ)
  rw [le_div_iff hlen]
  have hs := mul_le_listSum (g.map Level.price) m
    (by intro x hx; rcases List.mem_map.mp hx with ⟨a, ha, rfl⟩; exact h a ha)
  rw [List.length_map] at hs
  linarith

/-- Each group produced by the grouping loop only contains members of the
open group or of the remaining input. -/
theorem groupLevels_mem (tol : ℚ) :
    ∀ (rest cg g : List Level), g ∈ groupLevels tol cg rest →
      ∀ x ∈ g, x ∈ cg ∨ x ∈ rest := by
  intro rest
  induction rest with
  | nil =>
    intro cg g hg x hx
    simp only [groupLevels, List.mem_singleton] at hg
    subst hg
    exact Or.inl (List.mem_reverse.mp hx)
  | cons cur rest ih =>
    intro cg g hg x hx
    rcases cg with _ | ⟨last, cs⟩
    · simp only [groupLevels] at hg
      rcases ih [cur] g hg x hx with h1 | h1
      · exact Or.inr (List.mem_cons.mpr (Or.inl (List.mem_singleton.mp h1)))
      · exact Or.inr (List.mem_cons_of_mem _ h1)
    · simp only [groupLevels] at hg
      split_ifs at hg with h
      · rcases ih (cur :: last :: cs) g hg x hx with h1 | h1
        · rcases List.mem_cons.mp h1 with rfl | h2
          · exact Or.inr (List.mem_cons_self _ _)
          · exact Or.inl h2
        · exact Or.inr (List.mem_cons_of_mem _ h1)
      · rcases List.mem_cons.mp hg with rfl | hg'
        · exact Or.inl (List.mem_reverse.mp hx)
        · rcases ih [cur] g hg' x hx with h1 | h1
          · exact Or.inr (List.mem_cons.mpr (Or.inl (List.mem_singleton.mp h1)))
          · exact Or.inr (List.mem_cons_of_mem _ h1)

/-- Starting from a nonempty open group, every produced group is nonempty. -/
theorem groupLevels_groups_ne (tol : ℚ) :
    ∀ (rest cg : List Level), cg ≠ [] → ∀ g ∈ groupLevels tol cg rest, g ≠ [] := by
  intro rest
  induction rest with
  | nil =>
    intro cg hcg g hg
    simp only [groupLevels, List.mem_singleton] at hg
    subst hg
    intro hnil
    rw [List.reverse_eq_nil_iff] at hnil
    exact hcg hnil
  | cons cur rest ih =>
    intro cg hcg g hg
    rcases cg with _ | ⟨last, cs⟩
    · exact absurd rfl hcg
    · simp only [groupLevels] at hg
      split_ifs at hg with h
      · exact ih (cur :: last :: cs) (by simp) g hg
      · rcases List.mem_cons.mp hg with rfl | hg'
        · intro hnil
          rw [List.reverse_eq_nil_iff] at hnil
          cases hnil
        · exact ih [cur] (by simp) g hg'

/-- The grouping loop always returns at least one group. -/
theorem groupLevels_ne_nil (tol : ℚ) :
    ∀ (rest cg : List Level), groupLevels tol cg rest ≠ [] := by
  intro rest
  induction rest with
  | nil => intro cg; simp [groupLevels]
  | cons cur rest ih =>
    intro cg
    rcases cg with _ | ⟨last, cs⟩
    · simpa only [groupLevels] using ih [cur]
    · simp only [groupLevels]
      split_ifs with h
      · exact ih _
      · simp

/-- Chain invariant of the grouping loop over a sorted positive tail:
the merged means come out strictly increasing. -/
theorem groupLevels_chain (tol : ℚ) (htol : 0 < tol) :
    ∀ (rest : List Level) (c : Level) (cs : List Level),
      (∀ x ∈ c :: cs, x.price ≤ c.price) →
      (∀ x ∈ c :: cs, 0 < x.price) →
      (∀ x ∈ rest, 0 < x.price) →
      List.Sorted levelLe (c :: rest) →
      List.Chain' (fun a b => a.price < b.price)
        ((groupLevels tol (c :: cs) rest).map mergeLevelGroup) := by
  intro rest
  induction rest with
  | nil =>
    intro c cs _ _ _ _
    simp [groupLevels]
  | cons cur rest ih =>
    intro c cs hdom hposg hposr hsort
    rcases List.sorted_cons.mp hsort with ⟨hca, hsort'⟩
    have hccur : c.price ≤ cur.price := hca cur (List.mem_cons_self _ _)
    have hcurrest : ∀ x ∈ rest, cur.price ≤ x.price :=
      fun x hx => (List.sorted_cons.mp hsort').1 x hx
    simp only [groupLevels]
    split_ifs with h
    · exact ih cur (c :: cs)
        (by
          intro x hx
          rcases List.mem_cons.mp hx with h0 | hx'
          · rw [h0]
          · exact le_trans (hdom x hx') hccur)
        (by
          intro x hx
          rcases List.mem_cons.mp hx with h0 | hx'
          · rw [h0]; exact hposr cur (List.mem_cons_self _ _)
          · exact hposg x hx')
        (fun x hx => hposr x (List.mem_cons_of_mem _ hx))
        hsort'
    · have hc0 : 0 < c.price := hposg c (List.mem_cons_self _ _)
      have hgap : c.price < cur.price := by
        have habs : |cur.price - c.price| = cur.price - c.price :=
          abs_of_nonneg (by linarith)
        rw [habs, not_lt, le_div_iff hc0] at h
        have := mul_pos htol hc0
        linarith
      rw [List.map_cons, List.chain'_cons']
      constructor
      · intro b hb
        rw [List.head?_map] at hb
        cases hL : (groupLevels tol [cur] rest).head? with
        | none => rw [hL] at hb; cases hb
        | some g =>
          rw [hL] at hb
          have hbg : b = mergeLevelGroup g := by
            have := Option.mem_def.mp hb
            simpa using this.symm
          have hgmem : g ∈ groupLevels tol [cur] rest :=
            List.mem_of_mem_head? (by rw [hL]; exact Option.mem_def.mpr rfl)
          have hgne : g ≠ [] :=
            groupLevels_groups_ne tol rest [cur] (by simp) g hgmem
          have houter : (mergeLevelGroup (c :: cs).reverse).price ≤ c.price := by
            apply mergeLevelGroup_price_le _ _ (by simp)
            intro x hx
            exact hdom x (List.mem_reverse.mp hx)
          have hinner : cur.price ≤ b.price := by
            rw [hbg]
            apply le_mergeLevelGroup_price _ _ hgne
            intro x hx
            rcases groupLevels_mem tol rest [cur] g hgmem x hx with h1 | h1
            · rw [List.mem_singleton.mp h1]
            · exact hcurrest x h1
          calc (mergeLevelGroup (c :: cs).reverse).price ≤ c.price := houter
            _ < cur.price := hgap
            _ ≤ b.price := hinner
      · exact ih cur []
          (by intro x hx; rw [List.mem_singleton.mp hx])
          (by intro x hx; rw [List.mem_singleton.mp hx]; exact hposr cur (List.mem_cons_self _ _))
          (fun x hx => hposr x (List.mem_cons_of_mem _ hx))
          hsort'

/-- C10: on any input list of levels with positive prices (and a positive
merge tolerance, as configured by default), `_merge_similar_levels`
returns merged groups whose mean prices are strictly increasing: each
group's mean price is strictly greater than the preceding group's. -/
theorem C10_merged_levels_increasing (tol : ℚ) (levels : List Level)
    (htol : 0 < tol) (hpos : ∀ l ∈ levels, 0 < l.price) :
    List.Chain' (fun a b => a.price < b.price) (mergeSimilarLevels tol levels) := by
  unfold mergeSimilarLevels
  rcases hs : levels.insertionSort levelLe with _ | ⟨l, ls⟩
  · exact List.chain'_nil
  · have hperm := List.perm_insertionSort levelLe levels
    rw [hs] at hperm
    have hsorted := List.sorted_insertionSort levelLe levels
    rw [hs] at hsorted
    exact groupLevels_chain tol htol ls l []
      (by intro x hx; rw [List.mem_singleton.mp hx])
      (by intro x hx; rw [List.mem_singleton.mp hx]
          exact hpos l (hperm.subset (List.mem_cons_self _ _)))
      (fun x hx => hpos x (hperm.subset (List.mem_cons_of_mem _ hx)))
      hsorted

/-- On the two separated positive levels of `c5levels` with the default
tolerance 0.02, the merged output is strictly increasing in price. -/
theorem C10_witness :
    List.Chain' (fun a b => a.price < b.price) (mergeSimilarLevels (1/50) c5levels) :=
  C10_merged_levels_increasing (1/50) c5levels (by norm_num) (by decide)

end GannSpec

namespace GannSpec

/-- One-bar fixture for the fibonacci/resistance confidence evaluations. -/
def fibBarsA : List Bar := [⟨0, 0, 200, 100, 300, 10⟩]

/-- Same prices as `fibBarsA` but a different volume — a market input the
dynamic confidence calculator reads. -/
def fibBarsB : List Bar := [⟨0, 0, 200, 100, 300, 999⟩]

/-- Concrete synthesizer kernels for evaluations. -/
def ppW : PPConfig := ⟨ratSqrt, tanOne, fun _ => 0⟩

/-- The dynamic confidence calculator clamps to `[30, 95]`. -/
theorem dynConfidenceBounds (t : String) (s : ℚ) (mv : Option ℚ) (vf ta : ℚ) :
    30 ≤ calculateDynamicConfidence t s mv vf ta ∧
      calculateDynamicConfidence t s mv vf ta ≤ 95 := by
  unfold calculateDynamicConfidence
  exact ⟨le_max_left _ _, max_le (by norm_num) (min_le_left _ _)⟩

/-- Gann support targets carry dynamically clamped confidences. -/
theorem gannSupportTargets_conf (cfg : PPConfig) (data : List Bar)
    (supports : List MergedLevel) :
    ∀ p ∈ gannSupportTargets cfg data supports,
      30 ≤ p.confidence ∧ p.confidence ≤ 95 := by
  intro p hp
  simp only [gannSupportTargets, List.mem_filterMap] at hp
  obtain ⟨a, ha, hfa⟩ := hp
  split_ifs at hfa
  all_goals
    first
      | (have he := Option.some.inj hfa
         subst he
         exact dynConfidenceBounds _ _ _ _ _)
      | simp at hfa

/-- Gann resistance targets carry the rank ladder `min(90 - 5i, 95)`,
which lies in `[55, 90]`. -/
theorem gannResistanceTargets_conf (data : List Bar)
    (resistances : List MergedLevel) :
    ∀ p ∈ gannResistanceTargets data resistances,
      30 ≤ p.confidence ∧ p.confidence ≤ 95 := by
  intro p hp
  simp only [gannResistanceTargets, List.mem_filterMap] at hp
  obtain ⟨⟨r, i⟩, ha, hfa⟩ := hp
  split_ifs at hfa
  all_goals
    first
      | (have he := Option.some.inj hfa
         subst he
         have hi8 : i < 8 := List.mem_range.mp (List.of_mem_zip ha).2
         have hi8z : (i : ℤ) < 8 := by exact_mod_cast hi8
         exact ⟨le_min (by omega) (by norm_num), min_le_right _ _⟩)
      | simp at hfa

/-- The detailed Gann wheel levels carry dynamically clamped confidences. -/
theorem detailedGannWheelLevels_conf (cfg : PPConfig) (cp : ℚ) (data : List Bar) :
    ∀ p ∈ calculateDetailedGannWheelLevels cfg cp data,
      30 ≤ p.confidence ∧ p.confidence ≤ 95 := by
  intro p hp
  simp only [calculateDetailedGannWheelLevels, List.mem_flatMap] at hp
  obtain ⟨angle, hangle, hp⟩ := hp
  rcases List.mem_cons.mp hp with rfl | hp2
  · exact dynConfidenceBounds _ _ _ _ _
  rcases List.mem_cons.mp hp2 with rfl | hp3
  · exact dynConfidenceBounds _ _ _ _ _
  · exact absurd hp3 (List.not_mem_nil p)

/-- The volume-price memory levels carry `min(90, 70 + rank) ∈ [71, 90]`. -/
theorem detailedVolumePriceLevels_conf (data : List Bar) :
    ∀ p ∈ calculateDetailedVolumePriceLevels data,
      30 ≤ p.confidence ∧ p.confidence ≤ 95 := by
  intro p hp
  simp only [calculateDetailedVolumePriceLevels, List.mem_map] at hp
  obtain ⟨m, hm, rfl⟩ := hp
  exact ⟨le_min (by norm_num) (by omega), le_trans (min_le_left _ _) (by norm_num)⟩

/-- Every surge-ladder entry has confidence `min(80 - 10j, 85) ∈ [60, 80]`. -/
theorem surgeLadder_conf (vlt : Option ℚ) (cp cv : ℚ) (nm : String)
    (avg : Option ℚ) (sharp : Bool) :
    ∀ p ∈ surgeLadder vlt cp cv nm avg sharp,
      30 ≤ p.confidence ∧ p.confidence ≤ 95 := by
  intro p hp
  cases avg with
  | none => simp [surgeLadder] at hp
  | some a =>
    simp only [surgeLadder] at hp
    split_ifs at hp
    all_goals
      first
        | (obtain ⟨m, hm, rfl⟩ := List.mem_map.mp hp
           have hm3 : m.2 < 3 := List.mem_range.mp (List.of_mem_zip hm).2
           have hm3z : (m.2 : ℤ) < 3 := by exact_mod_cast hm3
           have hm0 : (0 : ℤ) ≤ (m.2 : ℤ) := Int.natCast_nonneg _
           exact ⟨le_min (by omega) (by norm_num),
             le_trans (min_le_right _ _) (by norm_num)⟩)
        | simp at hp

/-- All volume-price targets (surge ladders and memory levels) have
confidence in `[30, 95]`. -/
theorem volumePriceTargets_conf (cfg : PPConfig) (data : List Bar) :
    ∀ p ∈ calculateVolumePriceTargets cfg data,
      30 ≤ p.confidence ∧ p.confidence ≤ 95 := by
  intro p hp
  simp only [calculateVolumePriceTargets, List.mem_append] at hp
  rcases hp with ((h | h) | h) | h
  · exact surgeLadder_conf _ _ _ _ _ _ p h
  · exact surgeLadder_conf _ _ _ _ _ _ p h
  · exact surgeLadder_conf _ _ _ _ _ _ p h
  · exact detailedVolumePriceLevels_conf data p h

/-- Fibonacci targets carry the fixed confidences 60 and 70. -/
theorem fibonacciTargets_conf (data : List Bar) :
    ∀ p ∈ calculateFibonacciTargets data,
      30 ≤ p.confidence ∧ p.confidence ≤ 95 := by
  intro p hp
  simp only [calculateFibonacciTargets, List.mem_filterMap] at hp
  obtain ⟨level, hl, hfa⟩ := hp
  split_ifs at hfa
  all_goals
    first
      | (have he := Option.some.inj hfa
         subst he
         exact ⟨by norm_num, by norm_num⟩)
      | simp at hfa

/-- Support/resistance targets carry dynamically clamped confidences. -/
theorem supportResistanceTargets_conf (cfg : PPConfig) (data : List Bar) :
    ∀ p ∈ calculateSupportResistanceTargets cfg data,
      30 ≤ p.confidence ∧ p.confidence ≤ 95 := by
  intro p hp
  simp only [calculateSupportResistanceTargets, List.mem_filterMap] at hp
  obtain ⟨⟨tp, dirn, ty, cf⟩, hpt, hfa⟩ := hp
  cases tp with
  | none => exact absurd hfa (by simp)
  | some price =>
    dsimp only at hfa
    split_ifs at hfa
    all_goals
      first
        | (have he := Option.some.inj hfa
           subst he
           exact dynConfidenceBounds _ _ _ _ _)
        | simp at hfa

/-- All Gann price targets have confidence in `[30, 95]`. -/
theorem gannPriceTargets_conf (cfg : PPConfig) (data : List Bar)
    (supports resistances : List MergedLevel) :
    ∀ p ∈ calculateGannPriceTargets cfg data supports resistances,
      30 ≤ p.confidence ∧ p.confidence ≤ 95 := by
  intro p hp
  simp only [calculateGannPriceTargets, List.mem_append] at hp
  rcases hp with (h | h) | h
  · exact gannSupportTargets_conf cfg data supports p h
  · exact gannResistanceTargets_conf data resistances p h
  · exact detailedGannWheelLevels_conf cfg (lastClose data) data p h

/-- The first-hit merge step only emits the candidate or kept elements. -/
theorem predMergeStep_mem (pred : PPrediction) :
    ∀ (l : List PPrediction) (x : PPrediction), x ∈ predMergeStep pred l →
      x = pred ∨ x ∈ l := by
  intro l
  induction l with
  | nil => intro x hx; simp [predMergeStep] at hx
  | cons e rest ih =>
    intro x hx
    simp only [predMergeStep] at hx
    split_ifs at hx with h1 h2
    · rcases List.mem_cons.mp hx with h3 | h3
      · exact Or.inl h3
      · exact Or.inr (List.mem_cons_of_mem _ h3)
    · exact Or.inr hx
    · rcases List.mem_cons.mp hx with h3 | h3
      · exact Or.inr (by rw [h3]; exact List.mem_cons_self _ _)
      · rcases ih x h3 with h4 | h4
        · exact Or.inl h4
        · exact Or.inr (List.mem_cons_of_mem _ h4)

/-- Merging similar predictions preserves a confidence-bound invariant. -/
theorem mergeSimilarPredictions_conf (preds : List PPrediction)
    (h : ∀ x ∈ preds, 30 ≤ x.confidence ∧ x.confidence ≤ 95) :
    ∀ x ∈ mergeSimilarPredictions preds,
      30 ≤ x.confidence ∧ x.confidence ≤ 95 := by
  unfold mergeSimilarPredictions
  refine List.foldlRecOn
    (motive := fun (acc : List PPrediction) => ∀ x ∈ acc, 30 ≤ x.confidence ∧ x.confidence ≤ 95)
    preds _ [] ?_ ?_
  · intro x hx
    exact absurd hx (List.not_mem_nil x)
  · intro acc hacc pred hpred x hx
    split_ifs at hx with hc
    · rcases predMergeStep_mem pred acc x hx with h1 | h1
      · rw [h1]; exact h pred hpred
      · exact hacc x h1
    · rcases List.mem_append.mp hx with h1 | h1
      · exact hacc x h1
      · rw [List.mem_singleton.mp h1]; exact h pred hpred

/-- C7 (amended): every prediction emitted by
`_calculate_key_price_levels` — from any candidate model and after
merging, sorting and truncation — has integer confidence in `[30, 95]`;
the gann-resistance, volume-surge, volume-memory and fibonacci candidates
however carry static ladder/constant confidences, not dynamically
computed ones. -/
theorem C7_confidence_bounds (cfg : PPConfig) (data : List Bar)
    (supports resistances : List MergedLevel) :
    ∀ p ∈ calculateKeyPriceLevels cfg data supports resistances,
      30 ≤ p.confidence ∧ p.confidence ≤ 95 := by
  intro p hp
  unfold calculateKeyPriceLevels at hp
  have hmerged := (List.perm_insertionSort _ _).subset (List.take_subset 12 _ hp)
  refine mergeSimilarPredictions_conf _ ?_ p hmerged
  intro x hx
  simp only [List.mem_append] at hx
  rcases hx with ((h | h) | h) | h
  · exact gannPriceTargets_conf cfg data supports resistances x h
  · exact volumePriceTargets_conf cfg data x h
  · exact fibonacciTargets_conf data x h
  · exact supportResistanceTargets_conf cfg data x h

end GannSpec

namespace GannSpec

/-- Floor evaluation used by the confidence computations. -/
theorem floorEval845 : (⌊(169/2 : ℚ)⌋ : ℤ) = 84 := by
  rw [Int.floor_eq_iff] <;> norm_num

/-- Floor evaluation used by the confidence computations. -/
theorem floorEval8205 : (⌊(1641/20 : ℚ)⌋ : ℤ) = 82 := by
  rw [Int.floor_eq_iff] <;> norm_num

/-- Floor evaluation used by the confidence computations. -/
theorem floorEval965 : (⌊(193/2 : ℚ)⌋ : ℤ) = 96 := by
  rw [Int.floor_eq_iff] <;> norm_num

/-- Floor evaluation used by the confidence computations. -/
theorem floorEval9335 : (⌊(1867/20 : ℚ)⌋ : ℤ) = 93 := by
  rw [Int.floor_eq_iff] <;> norm_num

/-- C7 counterexample to "computed dynamically, never a static constant":
on two one-bar datasets that differ in volume (an input the dynamic
calculator reads), the fibonacci targets are identical with the fixed
confidence ladder `60, 70, 60, 70, 60`, and the gann-resistance target
carries the fixed rank confidence 90 on both. -/
theorem C7_counterexample :
    fibBarsA ≠ fibBarsB ∧
    calculateFibonacciTargets fibBarsA = calculateFibonacciTargets fibBarsB ∧
    (calculateFibonacciTargets fibBarsA).map PPrediction.confidence =
      [60, 70, 60, 70, 60] ∧
    (gannResistanceTargets fibBarsA [⟨400, "resistance", 1, 1, ["resistance"]⟩]).map
      PPrediction.confidence = [90] ∧
    (gannResistanceTargets fibBarsB [⟨400, "resistance", 1, 1, ["resistance"]⟩]).map
      PPrediction.confidence = [90] := by
  refine ⟨by decide, ?_, ?_, ?_, ?_⟩ <;>
    norm_num [calculateFibonacciTargets, gannResistanceTargets, fibBarsA, fibBarsB,
      listMax, listMin, lastClose, closeAt, List.filterMap, List.range_eq_range',
      List.range', List.zip, List.zipWith, min_def, max_def, abs_of_nonneg]

end GannSpec

namespace GannSpec

/-- On the empty frame the synthesizer emits the single merged 45°/90°
gann-wheel prediction with confidence 95, which the bound theorem places
in `[30, 95]`. -/
theorem C7_witness :
    30 ≤ (PPrediction.mk (some 0) "up" "gann_wheel_angle" 95).confidence ∧
      (PPrediction.mk (some 0) "up" "gann_wheel_angle" 95).confidence ≤ 95 :=
  C7_confidence_bounds ppW [] [] [] ⟨some 0, "up", "gann_wheel_angle", 95⟩ (by
    norm_num [calculateKeyPriceLevels, calculateGannPriceTargets, gannSupportTargets,
      gannResistanceTargets, calculateDetailedGannWheelLevels, detailedGannAngles,
      marketVolatilityOf, volumeFactorOf, calculateDynamicConfidence, intTrunc,
      calculateVolumePriceTargets, surgeLadder, calculateDetailedVolumePriceLevels,
      calculateFibonacciTargets, calculateSupportResistanceTargets, calculatePivotPoints,
      mergeSimilarPredictions, predMergeStep, closeTo, pyRange, lastClose, closeAt,
      volumeAt, listMax, listMin, listMean, listSum, optLast, optAt, rollingMean,
      pctChange, seriesStd, sampleVar, ppW, List.insertionSort, List.orderedInsert,
      List.range_eq_range', List.range', min_def, max_def,
      floorEval845, floorEval8205, floorEval965, floorEval9335])

end GannSpec

namespace GannSpec

/-- Thirty-one bars: bar 0 at price 100, bars 1–29 far away from the
26.25° line (no touch), bar 30 with range `[0, 1000]` touching it. -/
def c9bars : List Bar :=
  [⟨0, 100, 100, 100, 100, 0⟩, ⟨1, 0, 1000000, 1000000, 0, 0⟩, ⟨2, 0, 1000000, 1000000, 0, 0⟩,
   ⟨3, 0, 1000000, 1000000, 0, 0⟩, ⟨4, 0, 1000000, 1000000, 0, 0⟩, ⟨5, 0, 1000000, 1000000, 0, 0⟩,
   ⟨6, 0, 1000000, 1000000, 0, 0⟩, ⟨7, 0, 1000000, 1000000, 0, 0⟩, ⟨8, 0, 1000000, 1000000, 0, 0⟩,
   ⟨9, 0, 1000000, 1000000, 0, 0⟩, ⟨10, 0, 1000000, 1000000, 0, 0⟩, ⟨11, 0, 1000000, 1000000, 0, 0⟩,
   ⟨12, 0, 1000000, 1000000, 0, 0⟩, ⟨13, 0, 1000000, 1000000, 0, 0⟩, ⟨14, 0, 1000000, 1000000, 0, 0⟩,
   ⟨15, 0, 1000000, 1000000, 0, 0⟩, ⟨16, 0, 1000000, 1000000, 0, 0⟩, ⟨17, 0, 1000000, 1000000, 0, 0⟩,
   ⟨18, 0, 1000000, 1000000, 0, 0⟩, ⟨19, 0, 1000000, 1000000, 0, 0⟩, ⟨20, 0, 1000000, 1000000, 0, 0⟩,
   ⟨21, 0, 1000000, 1000000, 0, 0⟩, ⟨22, 0, 1000000, 1000000, 0, 0⟩, ⟨23, 0, 1000000, 1000000, 0, 0⟩,
   ⟨24, 0, 1000000, 1000000, 0, 0⟩, ⟨25, 0, 1000000, 1000000, 0, 0⟩, ⟨26, 0, 1000000, 1000000, 0, 0⟩,
   ⟨27, 0, 1000000, 1000000, 0, 0⟩, ⟨28, 0, 1000000, 1000000, 0, 0⟩, ⟨29, 0, 1000000, 1000000, 0, 0⟩,
   ⟨30, 0, 1000, 0, 0, 0⟩]

/-- C9 counterexample: the Gann engine's angle list contains 90°, whose
slope is computed by calling the tangent kernel at exactly 90° (two
kernels differing only at 90° give different slopes), and the angle-line
projection is unclamped — on `c9bars` the 26.25° line from price 100
contains a predicted price of 160, a +60% move. -/
theorem C9_counterexample :
    (90 : ℚ) ∈ testGannConfig.priceAngles ∧
    angleLineUsesTan 90 = true ∧
    gannSlope tanOne 90 "low" = 1 ∧ gannSlope tanOneAlt 90 "low" = 2 ∧
    (calculateGannAngleLine testGannConfig c9bars 0 100 (2625/100) "low").linePoints =
      [⟨30, 160, 500⟩] ∧
    100 + 100 * (1/2) < (160 : ℚ) := by
  refine ⟨by norm_num [testGannConfig, defaultPriceAngles], ?_, ?_, ?_, ?_, by norm_num⟩
  · norm_num [angleLineUsesTan]
  · norm_num [gannSlope, tanOne]
  · norm_num [gannSlope, tanOneAlt]
  · norm_num [calculateGannAngleLine, gannSlope, indexOfDate, c9bars, pyRange,
      List.range', List.findIdx?_cons, dateAt, lowAt, highAt, List.filterMap,
      List.length, testGannConfig, List.get?, abs_of_nonneg]

end GannSpec

namespace GannSpec

/-- C9 (amended, holds only for the synthesizer's
`_calculate_detailed_gann_wheel_levels`): the tangent kernel is never
consulted at angles ≥ 90° (kernels agreeing below 90° give identical
outputs even when they differ at 90°), and with a nonnegative reference
price every upward target is clamped to at most +50% and every downward
target to at most −40% of the reference price.  The Gann engine's own
angle lines satisfy neither property. -/
theorem C9_synthesizer_guarded (cfg1 cfg2 : PPConfig) (cp : ℚ) (data : List Bar)
    (hs : cfg1.sqrtFn = cfg2.sqrtFn)
    (ht : ∀ a : ℚ, a < 90 → cfg1.tanFn a = cfg2.tanFn a)
    (hcp : 0 ≤ cp) :
    calculateDetailedGannWheelLevels cfg1 cp data =
      calculateDetailedGannWheelLevels cfg2 cp data ∧
    ∀ p ∈ calculateDetailedGannWheelLevels cfg1 cp data,
      (p.direction = "up" → ∀ t ∈ p.targetPrice, t ≤ cp * (3/2)) ∧
      (p.direction = "down" → ∀ t ∈ p.targetPrice, cp * (3/5) ≤ t) := by
  constructor
  · have h15 := ht 15 (by norm_num)
    have h225 := ht (45/2) (by norm_num)
    have h30 := ht 30 (by norm_num)
    have h45 := ht 45 (by norm_num)
    have h60 := ht 60 (by norm_num)
    have h675 := ht (135/2) (by norm_num)
    have h75 := ht 75 (by norm_num)
    norm_num [calculateDetailedGannWheelLevels, detailedGannAngles, marketVolatilityOf,
      h15, h225, h30, h45, h60, h675, h75, hs]
  · intro p hp
    simp only [calculateDetailedGannWheelLevels, List.mem_flatMap] at hp
    obtain ⟨angle, hangle, hp⟩ := hp
    rcases List.mem_cons.mp hp with rfl | hp2
    · constructor
      · intro _ t ht'
        obtain rfl := Option.mem_some_iff.mp ht'
        refine mul_le_mul_of_nonneg_left ?_ hcp
        exact le_trans (add_le_add_left (min_le_right _ _) 1) (by norm_num)
      · intro hdir
        simp at hdir
    rcases List.mem_cons.mp hp2 with rfl | hp3
    · constructor
      · intro hdir
        simp at hdir
      · intro _ t ht'
        obtain rfl := Option.mem_some_iff.mp ht'
        refine mul_le_mul_of_nonneg_left ?_ hcp
        exact le_trans (by norm_num) (sub_le_sub_left (min_le_right _ _) 1)
    · exact absurd hp3 (List.not_mem_nil p)

/-- Instantiation of the synthesizer guard/clamp theorem at reference
price 100 with two kernels differing only at 90°. -/
theorem C9_witness :
    calculateDetailedGannWheelLevels ppW 100 [] =
      calculateDetailedGannWheelLevels ⟨ratSqrt, tanOneAlt, fun _ => 0⟩ 100 [] ∧
    ∀ p ∈ calculateDetailedGannWheelLevels ppW 100 [],
      (p.direction = "up" → ∀ t ∈ p.targetPrice, t ≤ 100 * (3/2)) ∧
      (p.direction = "down" → ∀ t ∈ p.targetPrice, 100 * (3/5) ≤ t) :=
  C9_synthesizer_guarded ppW ⟨ratSqrt, tanOneAlt, fun _ => 0⟩ 100 [] rfl
    (by
      intro a ha
      show tanOne a = tanOneAlt a
      simp only [tanOne, tanOneAlt]
      rw [if_neg]
      intro h
      rw [h] at ha
      exact absurd ha (by norm_num))
    (by norm_num)

end GannSpec
